import Mathlib

/-!
# Solana Token Manager — verification of the natural-language specification

Shallow embedding of the client-side orchestration code of the
Solana Token Manager dashboard (wallet session, create / mint / send
lifecycle, recency list, transaction-history classification, address
truncation).  JS numbers are modelled by exact arithmetic (`ℚ` / `ℤ` / `ℕ`),
strings by `String` or `List Char`, fallible collaborator calls by
`Except String α` oracles supplied as explicit arguments, and one
invocation of an orchestrator by a pure function from the form state and
the oracle to a result record (final form state, notifications emitted,
built transaction, collaborator calls made).
-/

/-- Kind of a user-facing notification, as passed to `showNotification`. -/
inductive NotifKind where
  | success
  | error
deriving DecidableEq, Repr

/-- A user-facing notification: `showNotification(kind, message)`. -/
structure Notification where
  kind : NotifKind
  message : String
deriving DecidableEq, Repr

/-- The instructions this client ever places in a transaction:
`createMintToInstruction`, `createTransferInstruction`, and the
initialize-mint instruction built inside the library call `createMint`.
Each carries exactly the arguments the source passes. -/
inductive Instr where
  | mintTo (mint tokenAccount authority : String) (amount : ℤ)
  | transfer (source destination owner : String) (amount : ℤ)
  | initializeMint (mint : String) (decimals : ℕ)
      (mintAuthority freezeAuthority : String)
deriving DecidableEq, Repr

/- ## `truncateAddress` (src/lib/utils.ts)

```js
export function truncateAddress(address, startChars = 4, endChars = 4) {
  if (!address) return ""
  if (address.length <= startChars + endChars) return address
  return `${address.slice(0, startChars)}...${address.slice(-endChars)}`
}
```
Strings are modelled as `List Char`.  `address.slice(-endChars)` is JS
`String.prototype.slice` with a single negative argument: for
`1 ≤ e ≤ len` it yields the last `e` characters, but for `e = 0` the
argument is `-0 = 0` and the WHOLE string is returned. -/

/-- JS `s.slice(-e)` for a natural `e` (the source only ever negates a
non-negative count).  `-0` is `+0`, so `e = 0` yields the whole string;
for `e ≥ 1` the start index is `max(len - e, 0)`, i.e. the last `e`
characters (all of `s` when `e > len`). -/
def jsSliceNeg (s : List Char) (e : ℕ) : List Char :=
  if e = 0 then s else s.drop (s.length - e)

/-- The three-dot ellipsis literal. -/
def dots : List Char := ['.', '.', '.']

/-- Embedding of `truncateAddress` from `src/lib/utils.ts`. -/
def truncateAddress (address : List Char) (startChars endChars : ℕ) :
    List Char :=
  if address = [] then []
  else if address.length ≤ startChars + endChars then address
  else address.take startChars ++ dots ++ jsSliceNeg address endChars

/-- Claim C10, as stated, is false at `endChars = 0`: on the 9-character
input `"abcdefghi"` with `startChars = 4`, the source returns the first 4
characters, the ellipsis, and then the WHOLE input (JS `slice(-0)` is
`slice(0)`), not the last 0 characters. -/
theorem c10_counterexample :
    truncateAddress ['a','b','c','d','e','f','g','h','i'] 4 0 =
      ['a','b','c','d','.','.','.','a','b','c','d','e','f','g','h','i'] ∧
    truncateAddress ['a','b','c','d','e','f','g','h','i'] 4 0 ≠
      ['a','b','c','d','.','.','.'] := by
  decide

/-- Claim C10 (amended): `truncateAddress` returns `[]` on the empty
input; returns the input unchanged whenever its length is at most
`startChars + endChars`; otherwise, provided `endChars ≥ 1`, returns the
first `startChars` characters, `"..."`, then the last `endChars`
characters, while for `endChars = 0` the whole input follows the
ellipsis; with the defaults (4 and 4) every output has length at most
`max (input length) 11`. -/
theorem c10_truncate_address :
    (∀ s e, truncateAddress [] s e = []) ∧
    (∀ (a : List Char) (s e : ℕ), a.length ≤ s + e →
      truncateAddress a s e = a) ∧
    (∀ (a : List Char) (s e : ℕ), s + e < a.length → 1 ≤ e →
      truncateAddress a s e = a.take s ++ dots ++ a.drop (a.length - e)) ∧
    (∀ (a : List Char) (s : ℕ), s < a.length →
      truncateAddress a s 0 = a.take s ++ dots ++ a) ∧
    (∀ a : List Char, (truncateAddress a 4 4).length ≤ max a.length 11) := by
  refine ⟨fun s e => rfl, ?_, ?_, ?_, ?_⟩
  · intro a s e h
    by_cases ha : a = []
    · subst ha; rfl
    · unfold truncateAddress
      rw [if_neg ha, if_pos h]
  · intro a s e h he
    have ha : a ≠ [] := by rintro rfl; simp at h
    unfold truncateAddress jsSliceNeg
    rw [if_neg ha, if_neg (show ¬ a.length ≤ s + e by omega),
      if_neg (show ¬ e = 0 by omega)]
  · intro a s h
    have ha : a ≠ [] := by rintro rfl; simp at h
    unfold truncateAddress jsSliceNeg
    rw [if_neg ha, if_neg (show ¬ a.length ≤ s + 0 by omega), if_pos rfl]
  · intro a
    by_cases ha : a = []
    · subst ha; simp [truncateAddress]
    · by_cases hl : a.length ≤ 4 + 4
      · have h8 : truncateAddress a 4 4 = a := by
          unfold truncateAddress; rw [if_neg ha, if_pos hl]
        rw [h8]; exact le_max_left _ _
      · unfold truncateAddress jsSliceNeg
        rw [if_neg ha, if_neg hl, if_neg (show ¬ (4 : ℕ) = 0 by omega)]
        refine le_trans ?_ (le_max_right _ _)
        simp only [List.length_append, List.length_take, List.length_drop,
          dots, List.length_cons, List.length_nil]
        omega

/-- Witness for `c10_truncate_address` at concrete inputs: a short input
is returned unchanged, a 9-character input is truncated to 11 characters,
and the defaults length bound holds there. -/
theorem c10_witness :
    truncateAddress ['a','b','c'] 4 4 = ['a','b','c'] ∧
    truncateAddress ['a','b','c','d','e','f','g','h','i'] 4 4 =
      ['a','b','c','d','.','.','.','f','g','h','i'] ∧
    truncateAddress ['a','b','c','d','e','f'] 4 0 =
      ['a','b','c','d','.','.','.','a','b','c','d','e','f'] := by
  refine ⟨c10_truncate_address.2.1 _ 4 4 (by decide), ?_, ?_⟩
  · rw [c10_truncate_address.2.2.1 ['a','b','c','d','e','f','g','h','i'] 4 4
      (by decide) (by decide)]
    decide
  · rw [c10_truncate_address.2.2.2.1 ['a','b','c','d','e','f'] 4 (by decide)]
    decide

/- ## Exact model of the numeric string parsing

JS numbers are IEEE doubles; the embedding models them by exact rational
arithmetic.  `Number.parseFloat` applied to a plain decimal literal
(optional leading minus sign, integer digits, optional fraction digits)
yields exactly the decimal value the user typed; other inputs produce
`NaN` (or use exponent notation), which the exact embedding leaves out by
returning `none`. -/

/-- Numeric value of a digit string, most significant first. -/
def digitsVal (l : List Char) : ℕ :=
  l.foldl (fun n c => 10 * n + (c.toNat - 48)) 0

/-- All characters are decimal digits. -/
def allDigits (l : List Char) : Bool :=
  l.all (fun c => c.isDigit)

/-- Split a character list at the first dot, if any. -/
def splitAtDot : List Char → List Char × Option (List Char)
  | [] => ([], none)
  | c :: rest =>
    if c = '.' then ([], some rest)
    else
      let p := splitAtDot rest
      (c :: p.1, p.2)

/-- Scan of a plain decimal literal `[-]digits[.digits]`:
(negative sign present, integer-part value, fraction-part value,
fraction-part digit count).  `none` when the string is not of this form. -/
def scanDec (s : String) : Option (Bool × ℕ × ℕ × ℕ) :=
  let signBody : Bool × List Char :=
    match s.data with
    | '-' :: rest => (true, rest)
    | l => (false, l)
  let p := splitAtDot signBody.2
  match p.2 with
  | none =>
    if p.1 ≠ [] ∧ allDigits p.1 then
      some (signBody.1, digitsVal p.1, 0, 0)
    else none
  | some fp =>
    if (p.1 ≠ [] ∨ fp ≠ []) ∧ allDigits p.1 ∧ allDigits fp then
      some (signBody.1, digitsVal p.1, digitsVal fp, fp.length)
    else none

/-- Exact-arithmetic model of `Number.parseFloat` on plain decimal
literals `[-]digits[.digits]`; `none` stands for the `NaN` / exotic-form
cases that the exact embedding does not model. -/
def parseDecQ (s : String) : Option ℚ :=
  (scanDec s).map fun t =>
    (if t.1 then (-1 : ℚ) else 1) *
      ((t.2.1 : ℚ) + (t.2.2.1 : ℚ) / (10 : ℚ) ^ t.2.2.2)

/-- Model of `Number.parseInt` on digit strings: value of the leading run
of digits, `none` when there is none (`NaN`). -/
def parseIntNat (s : String) : Option ℕ :=
  let ds := s.data.takeWhile (fun c => c.isDigit)
  if ds = [] then none else some (digitsVal ds)

/- ## MintToken (src/unnamed/part_000)

One invocation of `mintToken` is a pure function of the component props
(`walletAddress`), the form state, and an oracle giving the outcome of
each collaborator call in source order: `getOrCreateAssociatedTokenAccount`,
`connection.getLatestBlockhash`, `window.solana.signTransaction`,
`connection.sendRawTransaction`, `connection.confirmTransaction`.
A `.error` outcome models the collaborator throwing; control then jumps
to the `catch` block.  `window.solana` being absent models as
`walletPresent = false` (the code throws "Wallet not connected").
The result records the final form state, every notification emitted, the
built transaction, the collaborator calls actually made, the value
written to `localStorage` (if any), whether the `try` block completed,
and the `isLoading` flag after `finally`. -/

/-- Component props shared by the orchestrators: the session address. -/
structure WalletProps where
  walletAddress : String
deriving DecidableEq, Repr

/-- Form state of the MintToken component. -/
structure MintFormState where
  tokenMintAddress : String
  amount : String
  tokenDecimals : ℕ
  recentTokens : List String
deriving DecidableEq, Repr

/-- Tags for the collaborator calls an orchestrator can make. -/
inductive CallTag where
  | ata
  | ataRecipient
  | blockhash
  | sign
  | send
  | confirm
  | createMintCall
deriving DecidableEq, Repr

/-- Oracle: outcome of each collaborator call of `mintToken`. -/
structure MintOracle where
  walletPresent : Bool
  getOrCreateATA : Except String String
  latestBlockhash : Except String String
  signTransaction : Except String Unit
  sendRawTransaction : Except String String
  confirmTransaction : Except String Unit

/-- Result of one `mintToken` invocation. -/
structure MintResult where
  finalState : MintFormState
  notifications : List Notification
  builtTx : Option (List Instr)
  calls : List CallTag
  persisted : Option (List String)
  ok : Bool
  isLoading : Bool
deriving DecidableEq, Repr

/-- `"Please fill in all fields"` — the shared validation message. -/
def fillFieldsMsg : String := "Please fill in all fields"

/-- Static catch-block message of `mintToken`. -/
def mintFailMsg : String :=
  "Failed to mint tokens. Make sure you are the mint authority."

/-- Success message of `mintToken`, interpolating the raw amount field. -/
def mintSuccessMsg (amount : String) : String :=
  "Successfully minted " ++ amount ++ " tokens!"

/-- The catch-block outcome of `mintToken`: one static error
notification, state unchanged, nothing persisted, loading cleared. -/
def mintFailureResult (s : MintFormState) (tx : Option (List Instr))
    (calls : List CallTag) : MintResult :=
  { finalState := s
    notifications := [⟨.error, mintFailMsg⟩]
    builtTx := tx
    calls := calls
    persisted := none
    ok := false
    isLoading := false }

/-- The recency-list update of `mintToken` after confirmation:
```js
if (!recentTokens.includes(tokenMintAddress)) {
  const updatedTokens = [tokenMintAddress, ...recentTokens].slice(0, 5)
  ...
}
```
-/
def updatedRecentTokens (mint : String) (recent : List String) :
    List String :=
  if mint ∈ recent then recent else (mint :: recent).take 5

/-- Embedding of `mintToken` (src/unnamed/part_000, lines 55–126).
`none` only when the amount string is outside the plain-decimal fragment
modelled by `parseDecQ` (the float `NaN` path). -/
def mintToken (p : WalletProps) (s : MintFormState) (o : MintOracle) :
    Option MintResult :=
  if s.tokenMintAddress = "" ∨ s.amount = "" then
    some { finalState := s
           notifications := [⟨.error, fillFieldsMsg⟩]
           builtTx := none
           calls := []
           persisted := none
           ok := false
           isLoading := false }
  else
    match o.getOrCreateATA with
    | .error _ => some (mintFailureResult s none [.ata])
    | .ok tokenAccount =>
      match parseDecQ s.amount with
      | none => none
      | some v =>
        let amountToMint : ℤ := Int.floor (v * (10 : ℚ) ^ s.tokenDecimals)
        let tx : List Instr :=
          [.mintTo s.tokenMintAddress tokenAccount p.walletAddress
            amountToMint]
        if o.walletPresent = false then
          some (mintFailureResult s (some tx) [.ata])
        else
          match o.latestBlockhash with
          | .error _ => some (mintFailureResult s (some tx) [.ata, .blockhash])
          | .ok _ =>
            match o.signTransaction with
            | .error _ =>
              some (mintFailureResult s (some tx) [.ata, .blockhash, .sign])
            | .ok _ =>
              match o.sendRawTransaction with
              | .error _ =>
                some (mintFailureResult s (some tx)
                  [.ata, .blockhash, .sign, .send])
              | .ok _ =>
                match o.confirmTransaction with
                | .error _ =>
                  some (mintFailureResult s (some tx)
                    [.ata, .blockhash, .sign, .send, .confirm])
                | .ok _ =>
                  let newRecent :=
                    updatedRecentTokens s.tokenMintAddress s.recentTokens
                  some { finalState :=
                           { s with amount := "", recentTokens := newRecent }
                         notifications := [⟨.success, mintSuccessMsg s.amount⟩]
                         builtTx := some tx
                         calls := [.ata, .blockhash, .sign, .send, .confirm]
                         persisted :=
                           if s.tokenMintAddress ∈ s.recentTokens then none
                           else some newRecent
                         ok := true
                         isLoading := false }

/-- Initial value of the `tokenDecimals` state of MintToken
(`useState<number>(9)`). -/
def initialTokenDecimals : ℕ := 9

/-- Embedding of the `fetchTokenDecimals` effect (src/unnamed/part_000,
lines 38–52): runs when the mint address changes; a short or empty
address returns early and an error from `getMint` is swallowed — in both
cases the CURRENT `tokenDecimals` state is kept. -/
def fetchTokenDecimals (tokenMintAddress : String) (current : ℕ)
    (getMint : Except String ℕ) : ℕ :=
  if tokenMintAddress = "" ∨ tokenMintAddress.length < 32 then current
  else
    match getMint with
    | .ok d => d
    | .error _ => current

/-- The mint-to transaction built by `mintToken` for display amount `v`. -/
def mintBuiltTx (p : WalletProps) (s : MintFormState) (acct : String)
    (v : ℚ) : List Instr :=
  [.mintTo s.tokenMintAddress acct p.walletAddress
    (Int.floor (v * (10 : ℚ) ^ s.tokenDecimals))]

/-- `mintToken` on an empty required field: validation error only. -/
theorem mintToken_validation_fail (p : WalletProps) (s : MintFormState)
    (o : MintOracle) (h : s.tokenMintAddress = "" ∨ s.amount = "") :
    mintToken p s o =
      some { finalState := s
             notifications := [⟨.error, fillFieldsMsg⟩]
             builtTx := none
             calls := []
             persisted := none
             ok := false
             isLoading := false } := by
  unfold mintToken
  rw [if_pos h]

/-- `mintToken` when `getOrCreateAssociatedTokenAccount` throws. -/
theorem mintToken_ata_fail (p : WalletProps) (s : MintFormState)
    (o : MintOracle) (e : String)
    (h1 : s.tokenMintAddress ≠ "") (h2 : s.amount ≠ "")
    (ha : o.getOrCreateATA = .error e) :
    mintToken p s o = some (mintFailureResult s none [.ata]) := by
  unfold mintToken
  rw [if_neg (not_or.mpr ⟨h1, h2⟩), ha]

/-- `mintToken` when `window.solana` is absent after the transaction is
built. -/
theorem mintToken_no_wallet (p : WalletProps) (s : MintFormState)
    (o : MintOracle) (acct : String) (v : ℚ)
    (h1 : s.tokenMintAddress ≠ "") (h2 : s.amount ≠ "")
    (hv : parseDecQ s.amount = some v)
    (ha : o.getOrCreateATA = .ok acct)
    (hw : o.walletPresent = false) :
    mintToken p s o =
      some (mintFailureResult s (some (mintBuiltTx p s acct v)) [.ata]) := by
  unfold mintToken
  rw [if_neg (not_or.mpr ⟨h1, h2⟩), ha, hv, hw]
  rfl

/-- `mintToken` when `getLatestBlockhash` throws. -/
theorem mintToken_blockhash_fail (p : WalletProps) (s : MintFormState)
    (o : MintOracle) (acct : String) (v : ℚ) (e : String)
    (h1 : s.tokenMintAddress ≠ "") (h2 : s.amount ≠ "")
    (hv : parseDecQ s.amount = some v)
    (ha : o.getOrCreateATA = .ok acct)
    (hw : o.walletPresent = true)
    (hb : o.latestBlockhash = .error e) :
    mintToken p s o =
      some (mintFailureResult s (some (mintBuiltTx p s acct v))
        [.ata, .blockhash]) := by
  unfold mintToken
  rw [if_neg (not_or.mpr ⟨h1, h2⟩), ha, hv, hw, hb]
  rfl

/-- `mintToken` when the wallet's sign request is rejected. -/
theorem mintToken_sign_fail (p : WalletProps) (s : MintFormState)
    (o : MintOracle) (acct bh : String) (v : ℚ) (e : String)
    (h1 : s.tokenMintAddress ≠ "") (h2 : s.amount ≠ "")
    (hv : parseDecQ s.amount = some v)
    (ha : o.getOrCreateATA = .ok acct)
    (hw : o.walletPresent = true)
    (hb : o.latestBlockhash = .ok bh)
    (hs : o.signTransaction = .error e) :
    mintToken p s o =
      some (mintFailureResult s (some (mintBuiltTx p s acct v))
        [.ata, .blockhash, .sign]) := by
  unfold mintToken
  rw [if_neg (not_or.mpr ⟨h1, h2⟩), ha, hv, hw, hb, hs]
  rfl

/-- `mintToken` when `sendRawTransaction` throws. -/
theorem mintToken_send_fail (p : WalletProps) (s : MintFormState)
    (o : MintOracle) (acct bh : String) (v : ℚ) (e : String)
    (h1 : s.tokenMintAddress ≠ "") (h2 : s.amount ≠ "")
    (hv : parseDecQ s.amount = some v)
    (ha : o.getOrCreateATA = .ok acct)
    (hw : o.walletPresent = true)
    (hb : o.latestBlockhash = .ok bh)
    (hs : o.signTransaction = .ok ())
    (hd : o.sendRawTransaction = .error e) :
    mintToken p s o =
      some (mintFailureResult s (some (mintBuiltTx p s acct v))
        [.ata, .blockhash, .sign, .send]) := by
  unfold mintToken
  rw [if_neg (not_or.mpr ⟨h1, h2⟩), ha, hv, hw, hb, hs, hd]
  rfl

/-- `mintToken` when `confirmTransaction` throws. -/
theorem mintToken_confirm_fail (p : WalletProps) (s : MintFormState)
    (o : MintOracle) (acct bh sig : String) (v : ℚ) (e : String)
    (h1 : s.tokenMintAddress ≠ "") (h2 : s.amount ≠ "")
    (hv : parseDecQ s.amount = some v)
    (ha : o.getOrCreateATA = .ok acct)
    (hw : o.walletPresent = true)
    (hb : o.latestBlockhash = .ok bh)
    (hs : o.signTransaction = .ok ())
    (hd : o.sendRawTransaction = .ok sig)
    (hc : o.confirmTransaction = .error e) :
    mintToken p s o =
      some (mintFailureResult s (some (mintBuiltTx p s acct v))
        [.ata, .blockhash, .sign, .send, .confirm]) := by
  unfold mintToken
  rw [if_neg (not_or.mpr ⟨h1, h2⟩), ha, hv, hw, hb, hs, hd, hc]
  rfl

/-- `mintToken` on a fully successful run. -/
theorem mintToken_success (p : WalletProps) (s : MintFormState)
    (o : MintOracle) (acct bh sig : String) (v : ℚ)
    (h1 : s.tokenMintAddress ≠ "") (h2 : s.amount ≠ "")
    (hv : parseDecQ s.amount = some v)
    (ha : o.getOrCreateATA = .ok acct)
    (hw : o.walletPresent = true)
    (hb : o.latestBlockhash = .ok bh)
    (hs : o.signTransaction = .ok ())
    (hd : o.sendRawTransaction = .ok sig)
    (hc : o.confirmTransaction = .ok ()) :
    mintToken p s o =
      some { finalState :=
               { s with amount := ""
                        recentTokens :=
                          updatedRecentTokens s.tokenMintAddress
                            s.recentTokens }
             notifications := [⟨.success, mintSuccessMsg s.amount⟩]
             builtTx := some (mintBuiltTx p s acct v)
             calls := [.ata, .blockhash, .sign, .send, .confirm]
             persisted :=
               if s.tokenMintAddress ∈ s.recentTokens then none
               else some (updatedRecentTokens s.tokenMintAddress
                 s.recentTokens)
             ok := true
             isLoading := false } := by
  unfold mintToken
  rw [if_neg (not_or.mpr ⟨h1, h2⟩), ha, hv, hw, hb, hs, hd, hc]
  rfl

/- ## SendToken (src/components/send-token.tsx)

Same modelling as MintToken.  Collaborator calls in source order:
`getOrCreateAssociatedTokenAccount` for the sender, the same for the
recipient, `getLatestBlockhash`, `signTransaction`, `sendRawTransaction`,
`confirmTransaction`.  The selected token's decimals come from the
`tokenBalances` entry found by `tokenBalances.find((t) => t.mint ===
selectedToken)`; if no entry matches, the code throws locally and lands
in the `catch` block. -/

/-- One entry of the `tokenBalances` state of SendToken. -/
structure TokenBalance where
  mint : String
  balance : ℚ
  decimals : ℕ
deriving DecidableEq, Repr

/-- Form state of the SendToken component. -/
structure SendFormState where
  recipientAddress : String
  selectedToken : String
  amount : String
  tokenBalances : List TokenBalance
deriving DecidableEq, Repr

/-- Oracle: outcome of each collaborator call of `sendToken`. -/
structure SendOracle where
  walletPresent : Bool
  getOrCreateSenderATA : Except String String
  getOrCreateRecipientATA : Except String String
  latestBlockhash : Except String String
  signTransaction : Except String Unit
  sendRawTransaction : Except String String
  confirmTransaction : Except String Unit

/-- Result of one `sendToken` invocation. -/
structure SendResult where
  finalState : SendFormState
  notifications : List Notification
  builtTx : Option (List Instr)
  calls : List CallTag
  ok : Bool
  isLoading : Bool
deriving DecidableEq, Repr

/-- Static catch-block message of `sendToken`. -/
def sendFailMsg : String :=
  "Failed to send tokens. Please check the recipient address and your balance."

/-- Success message of `sendToken`, interpolating the raw amount field. -/
def sendSuccessMsg (amount : String) : String :=
  "Successfully sent " ++ amount ++ " tokens!"

/-- The catch-block outcome of `sendToken`. -/
def sendFailureResult (s : SendFormState) (tx : Option (List Instr))
    (calls : List CallTag) : SendResult :=
  { finalState := s
    notifications := [⟨.error, sendFailMsg⟩]
    builtTx := tx
    calls := calls
    ok := false
    isLoading := false }

/-- The transfer transaction built by `sendToken` for display amount `v`
and the selected token's entry `info`. -/
def sendBuiltTx (p : WalletProps) (senderAcct recipAcct : String)
    (info : TokenBalance) (v : ℚ) : List Instr :=
  [.transfer senderAcct recipAcct p.walletAddress
    (Int.floor (v * (10 : ℚ) ^ info.decimals))]

/-- Embedding of `sendToken` (src/components/send-token.tsx,
lines 85–184).  `none` only on the unmodelled `NaN` amount path. -/
def sendToken (p : WalletProps) (s : SendFormState) (o : SendOracle) :
    Option SendResult :=
  if s.selectedToken = "" ∨ s.recipientAddress = "" ∨ s.amount = "" then
    some { finalState := s
           notifications := [⟨.error, fillFieldsMsg⟩]
           builtTx := none
           calls := []
           ok := false
           isLoading := false }
  else
    match s.tokenBalances.find? (fun t => t.mint == s.selectedToken) with
    | none => some (sendFailureResult s none [])
    | some info =>
      match parseDecQ s.amount with
      | none => none
      | some v =>
        let amountToSend : ℤ := Int.floor (v * (10 : ℚ) ^ info.decimals)
        match o.getOrCreateSenderATA with
        | .error _ => some (sendFailureResult s none [.ata])
        | .ok senderAcct =>
          match o.getOrCreateRecipientATA with
          | .error _ => some (sendFailureResult s none [.ata, .ataRecipient])
          | .ok recipAcct =>
            let tx : List Instr :=
              [.transfer senderAcct recipAcct p.walletAddress amountToSend]
            if o.walletPresent = false then
              some (sendFailureResult s (some tx) [.ata, .ataRecipient])
            else
              match o.latestBlockhash with
              | .error _ =>
                some (sendFailureResult s (some tx)
                  [.ata, .ataRecipient, .blockhash])
              | .ok _ =>
                match o.signTransaction with
                | .error _ =>
                  some (sendFailureResult s (some tx)
                    [.ata, .ataRecipient, .blockhash, .sign])
                | .ok _ =>
                  match o.sendRawTransaction with
                  | .error _ =>
                    some (sendFailureResult s (some tx)
                      [.ata, .ataRecipient, .blockhash, .sign, .send])
                  | .ok _ =>
                    match o.confirmTransaction with
                    | .error _ =>
                      some (sendFailureResult s (some tx)
                        [.ata, .ataRecipient, .blockhash, .sign, .send,
                          .confirm])
                    | .ok _ =>
                      some { finalState :=
                               { s with amount := ""
                                        recipientAddress := "" }
                             notifications :=
                               [⟨.success, sendSuccessMsg s.amount⟩]
                             builtTx := some tx
                             calls :=
                               [.ata, .ataRecipient, .blockhash, .sign,
                                 .send, .confirm]
                             ok := true
                             isLoading := false }

/-- `sendToken` on an empty required field: validation error only. -/
theorem sendToken_validation_fail (p : WalletProps) (s : SendFormState)
    (o : SendOracle)
    (h : s.selectedToken = "" ∨ s.recipientAddress = "" ∨ s.amount = "") :
    sendToken p s o =
      some { finalState := s
             notifications := [⟨.error, fillFieldsMsg⟩]
             builtTx := none
             calls := []
             ok := false
             isLoading := false } := by
  unfold sendToken
  rw [if_pos h]

/-- Validity bundle for a `sendToken` invocation: all fields non-empty,
the selected token is found, and the amount parses. -/
structure SendValid (s : SendFormState) (info : TokenBalance) (v : ℚ) :
    Prop where
  selNonempty : s.selectedToken ≠ ""
  recipNonempty : s.recipientAddress ≠ ""
  amountNonempty : s.amount ≠ ""
  found : s.tokenBalances.find? (fun t => t.mint == s.selectedToken) =
    some info
  parsed : parseDecQ s.amount = some v

/-- `sendToken` when the wallet's sign request is rejected. -/
theorem sendToken_sign_fail (p : WalletProps) (s : SendFormState)
    (o : SendOracle) (info : TokenBalance) (v : ℚ)
    (senderAcct recipAcct bh e : String)
    (hV : SendValid s info v)
    (ha : o.getOrCreateSenderATA = .ok senderAcct)
    (hr : o.getOrCreateRecipientATA = .ok recipAcct)
    (hw : o.walletPresent = true)
    (hb : o.latestBlockhash = .ok bh)
    (hs : o.signTransaction = .error e) :
    sendToken p s o =
      some (sendFailureResult s
        (some (sendBuiltTx p senderAcct recipAcct info v))
        [.ata, .ataRecipient, .blockhash, .sign]) := by
  unfold sendToken
  rw [if_neg (by simp [hV.selNonempty, hV.recipNonempty, hV.amountNonempty]),
    hV.found, hV.parsed, ha, hr, hw, hb, hs]
  rfl

/-- `sendToken` on a fully successful run. -/
theorem sendToken_success (p : WalletProps) (s : SendFormState)
    (o : SendOracle) (info : TokenBalance) (v : ℚ)
    (senderAcct recipAcct bh sig : String)
    (hV : SendValid s info v)
    (ha : o.getOrCreateSenderATA = .ok senderAcct)
    (hr : o.getOrCreateRecipientATA = .ok recipAcct)
    (hw : o.walletPresent = true)
    (hb : o.latestBlockhash = .ok bh)
    (hs : o.signTransaction = .ok ())
    (hd : o.sendRawTransaction = .ok sig)
    (hc : o.confirmTransaction = .ok ()) :
    sendToken p s o =
      some { finalState := { s with amount := "", recipientAddress := "" }
             notifications := [⟨.success, sendSuccessMsg s.amount⟩]
             builtTx := some (sendBuiltTx p senderAcct recipAcct info v)
             calls := [.ata, .ataRecipient, .blockhash, .sign, .send,
               .confirm]
             ok := true
             isLoading := false } := by
  unfold sendToken
  rw [if_neg (by simp [hV.selNonempty, hV.recipNonempty, hV.amountNonempty]),
    hV.found, hV.parsed, ha, hr, hw, hb, hs, hd, hc]
  rfl

/-- `sendToken` when the selected token is not among the balances: the
local throw lands in the catch block before any collaborator call. -/
theorem sendToken_not_found (p : WalletProps) (s : SendFormState)
    (o : SendOracle)
    (h1 : s.selectedToken ≠ "") (h2 : s.recipientAddress ≠ "")
    (h3 : s.amount ≠ "")
    (hf : s.tokenBalances.find? (fun t => t.mint == s.selectedToken) =
      none) :
    sendToken p s o = some (sendFailureResult s none []) := by
  unfold sendToken
  rw [if_neg (by simp [h1, h2, h3]), hf]

/-- `sendToken` when the sender's ATA call throws. -/
theorem sendToken_senderAta_fail (p : WalletProps) (s : SendFormState)
    (o : SendOracle) (info : TokenBalance) (v : ℚ) (e : String)
    (hV : SendValid s info v)
    (ha : o.getOrCreateSenderATA = .error e) :
    sendToken p s o = some (sendFailureResult s none [.ata]) := by
  unfold sendToken
  rw [if_neg (by simp [hV.selNonempty, hV.recipNonempty, hV.amountNonempty]),
    hV.found, hV.parsed, ha]

/-- `sendToken` when the recipient's ATA call throws. -/
theorem sendToken_recipAta_fail (p : WalletProps) (s : SendFormState)
    (o : SendOracle) (info : TokenBalance) (v : ℚ)
    (senderAcct e : String)
    (hV : SendValid s info v)
    (ha : o.getOrCreateSenderATA = .ok senderAcct)
    (hr : o.getOrCreateRecipientATA = .error e) :
    sendToken p s o =
      some (sendFailureResult s none [.ata, .ataRecipient]) := by
  unfold sendToken
  rw [if_neg (by simp [hV.selNonempty, hV.recipNonempty, hV.amountNonempty]),
    hV.found, hV.parsed, ha, hr]

/-- `sendToken` when `window.solana` is absent after the transaction is
built. -/
theorem sendToken_no_wallet (p : WalletProps) (s : SendFormState)
    (o : SendOracle) (info : TokenBalance) (v : ℚ)
    (senderAcct recipAcct : String)
    (hV : SendValid s info v)
    (ha : o.getOrCreateSenderATA = .ok senderAcct)
    (hr : o.getOrCreateRecipientATA = .ok recipAcct)
    (hw : o.walletPresent = false) :
    sendToken p s o =
      some (sendFailureResult s
        (some (sendBuiltTx p senderAcct recipAcct info v))
        [.ata, .ataRecipient]) := by
  unfold sendToken
  rw [if_neg (by simp [hV.selNonempty, hV.recipNonempty, hV.amountNonempty]),
    hV.found, hV.parsed, ha, hr, hw]
  rfl

/-- `sendToken` when `getLatestBlockhash` throws. -/
theorem sendToken_blockhash_fail (p : WalletProps) (s : SendFormState)
    (o : SendOracle) (info : TokenBalance) (v : ℚ)
    (senderAcct recipAcct e : String)
    (hV : SendValid s info v)
    (ha : o.getOrCreateSenderATA = .ok senderAcct)
    (hr : o.getOrCreateRecipientATA = .ok recipAcct)
    (hw : o.walletPresent = true)
    (hb : o.latestBlockhash = .error e) :
    sendToken p s o =
      some (sendFailureResult s
        (some (sendBuiltTx p senderAcct recipAcct info v))
        [.ata, .ataRecipient, .blockhash]) := by
  unfold sendToken
  rw [if_neg (by simp [hV.selNonempty, hV.recipNonempty, hV.amountNonempty]),
    hV.found, hV.parsed, ha, hr, hw, hb]
  rfl

/-- `sendToken` when `sendRawTransaction` throws. -/
theorem sendToken_send_fail (p : WalletProps) (s : SendFormState)
    (o : SendOracle) (info : TokenBalance) (v : ℚ)
    (senderAcct recipAcct bh e : String)
    (hV : SendValid s info v)
    (ha : o.getOrCreateSenderATA = .ok senderAcct)
    (hr : o.getOrCreateRecipientATA = .ok recipAcct)
    (hw : o.walletPresent = true)
    (hb : o.latestBlockhash = .ok bh)
    (hs : o.signTransaction = .ok ())
    (hd : o.sendRawTransaction = .error e) :
    sendToken p s o =
      some (sendFailureResult s
        (some (sendBuiltTx p senderAcct recipAcct info v))
        [.ata, .ataRecipient, .blockhash, .sign, .send]) := by
  unfold sendToken
  rw [if_neg (by simp [hV.selNonempty, hV.recipNonempty, hV.amountNonempty]),
    hV.found, hV.parsed, ha, hr, hw, hb, hs, hd]
  rfl

/-- `sendToken` when `confirmTransaction` throws. -/
theorem sendToken_confirm_fail (p : WalletProps) (s : SendFormState)
    (o : SendOracle) (info : TokenBalance) (v : ℚ)
    (senderAcct recipAcct bh sig e : String)
    (hV : SendValid s info v)
    (ha : o.getOrCreateSenderATA = .ok senderAcct)
    (hr : o.getOrCreateRecipientATA = .ok recipAcct)
    (hw : o.walletPresent = true)
    (hb : o.latestBlockhash = .ok bh)
    (hs : o.signTransaction = .ok ())
    (hd : o.sendRawTransaction = .ok sig)
    (hc : o.confirmTransaction = .error e) :
    sendToken p s o =
      some (sendFailureResult s
        (some (sendBuiltTx p senderAcct recipAcct info v))
        [.ata, .ataRecipient, .blockhash, .sign, .send, .confirm]) := by
  unfold sendToken
  rw [if_neg (by simp [hV.selNonempty, hV.recipNonempty, hV.amountNonempty]),
    hV.found, hV.parsed, ha, hr, hw, hb, hs, hd, hc]
  rfl

/- ## CreateToken (src/components/create-token.tsx)

`createToken` validates the three fields, generates a fresh mint keypair
(`Keypair.generate`, modelled as the oracle-supplied identifier
`newMint`), and delegates to the library call `createMint(connection,
signer, mintAuthority, freezeAuthority, Number.parseInt(decimals),
mintAccount)` with the session address as BOTH authorities.  `createMint`
internally builds one initialize-mint instruction with the requested
precision, has it signed and submits it; the embedding records that
instruction (the arguments the source passes) and takes the call's
success or failure from the oracle.  On success the mint address is
stored in `createdTokenMint` and a STATIC success message is shown. -/

/-- Form state of the CreateToken component. -/
structure CreateFormState where
  tokenName : String
  tokenSymbol : String
  decimals : String
deriving DecidableEq, Repr

/-- Oracle for `createToken`: the generated mint identity and the
outcome of the `createMint` library call. -/
structure CreateOracle where
  newMint : String
  createMint : Except String Unit

/-- Result of one `createToken` invocation. -/
structure CreateResult where
  createdTokenMint : Option String
  notifications : List Notification
  builtTx : Option (List Instr)
  calls : List CallTag
  ok : Bool
  isLoading : Bool
deriving DecidableEq, Repr

/-- Static catch-block message of `createToken`. -/
def createFailMsg : String := "Failed to create token. Please try again."

/-- Static success message of `createToken`. -/
def createSuccessMsg : String := "Token created successfully!"

/-- Embedding of `createToken` (src/components/create-token.tsx,
lines 25–88).  `none` only on the unmodelled `NaN` decimals path. -/
def createToken (p : WalletProps) (s : CreateFormState)
    (o : CreateOracle) : Option CreateResult :=
  if s.tokenName = "" ∨ s.tokenSymbol = "" ∨ s.decimals = "" then
    some { createdTokenMint := none
           notifications := [⟨.error, fillFieldsMsg⟩]
           builtTx := none
           calls := []
           ok := false
           isLoading := false }
  else
    match parseIntNat s.decimals with
    | none => none
    | some d =>
      let tx : List Instr :=
        [.initializeMint o.newMint d p.walletAddress p.walletAddress]
      match o.createMint with
      | .error _ =>
        some { createdTokenMint := none
               notifications := [⟨.error, createFailMsg⟩]
               builtTx := some tx
               calls := [.createMintCall]
               ok := false
               isLoading := false }
      | .ok _ =>
        some { createdTokenMint := some o.newMint
               notifications := [⟨.success, createSuccessMsg⟩]
               builtTx := some tx
               calls := [.createMintCall]
               ok := true
               isLoading := false }

/-- `createToken` on an empty required field: validation error only. -/
theorem createToken_validation_fail (p : WalletProps)
    (s : CreateFormState) (o : CreateOracle)
    (h : s.tokenName = "" ∨ s.tokenSymbol = "" ∨ s.decimals = "") :
    createToken p s o =
      some { createdTokenMint := none
             notifications := [⟨.error, fillFieldsMsg⟩]
             builtTx := none
             calls := []
             ok := false
             isLoading := false } := by
  unfold createToken
  rw [if_pos h]

/-- `createToken` when the `createMint` library call throws. -/
theorem createToken_fail (p : WalletProps) (s : CreateFormState)
    (o : CreateOracle) (d : ℕ) (e : String)
    (h1 : s.tokenName ≠ "") (h2 : s.tokenSymbol ≠ "") (h3 : s.decimals ≠ "")
    (hd : parseIntNat s.decimals = some d)
    (hc : o.createMint = .error e) :
    createToken p s o =
      some { createdTokenMint := none
             notifications := [⟨.error, createFailMsg⟩]
             builtTx := some [.initializeMint o.newMint d p.walletAddress
               p.walletAddress]
             calls := [.createMintCall]
             ok := false
             isLoading := false } := by
  unfold createToken
  rw [if_neg (by simp [h1, h2, h3]), hd, hc]

/-- `createToken` on a successful run. -/
theorem createToken_success (p : WalletProps) (s : CreateFormState)
    (o : CreateOracle) (d : ℕ)
    (h1 : s.tokenName ≠ "") (h2 : s.tokenSymbol ≠ "") (h3 : s.decimals ≠ "")
    (hd : parseIntNat s.decimals = some d)
    (hc : o.createMint = .ok ()) :
    createToken p s o =
      some { createdTokenMint := some o.newMint
             notifications := [⟨.success, createSuccessMsg⟩]
             builtTx := some [.initializeMint o.newMint d p.walletAddress
               p.walletAddress]
             calls := [.createMintCall]
             ok := true
             isLoading := false } := by
  unfold createToken
  rw [if_neg (by simp [h1, h2, h3]), hd, hc]

/- ## WalletConnect (src/components/wallet-connect.tsx)

```js
const disconnectWallet = () => {
  try {
    if (window.solana) {
      window.solana.disconnect()
    }
    setWalletAddress(null)
    showNotification("success", "Wallet disconnected")
  } catch (error) {
    console.error("Error disconnecting wallet:", error)
    showNotification("error", "Failed to disconnect wallet")
  }
}
```
The gateway call sits INSIDE the try block before the session reset, so
a throwing `disconnect()` jumps to the catch block: the address is NOT
cleared and an error notification IS shown.  (`disconnect()` actually
returns a promise that is not awaited; the embedding models the failure
that the surrounding try/catch is written to observe, a synchronous
throw.) -/

/-- Result of one `disconnectWallet` invocation. -/
structure DisconnectResult where
  walletAddress : Option String
  notifications : List Notification
  loggedError : Bool
deriving DecidableEq, Repr

/-- Embedding of `disconnectWallet`
(src/components/wallet-connect.tsx, lines 74–85). -/
def disconnectWallet (addr : Option String) (walletPresent : Bool)
    (gatewayDisconnect : Except String Unit) : DisconnectResult :=
  if walletPresent then
    match gatewayDisconnect with
    | .ok _ =>
      { walletAddress := none
        notifications := [⟨.success, "Wallet disconnected"⟩]
        loggedError := false }
    | .error _ =>
      { walletAddress := addr
        notifications := [⟨.error, "Failed to disconnect wallet"⟩]
        loggedError := true }
  else
    { walletAddress := none
      notifications := [⟨.success, "Wallet disconnected"⟩]
      loggedError := false }

/- ## TransactionHistory (src/components/transaction-history.tsx)

`fetchTransactions` lists at most 10 recent signatures (most recent
first, as returned by `getSignaturesForAddress` with `limit: 10`) and
maps each to a record.  The embedding takes the ledger's response as a
list of pairs: the signature entry and the parsed transaction returned
by `getParsedTransaction` (`none` when the node returns null). -/

/-- The SPL token program identifier the code compares against. -/
def tokenProgramId : String := "TokenkegQfeZyiNwAJbNbGKPFXCWuBvf9Ss623VQ5DA"

/-- The native system program identifier the code compares against. -/
def systemProgramId : String := "11111111111111111111111111111111"

/-- A signature entry from `getSignaturesForAddress`. -/
structure SigInfo where
  signature : String
  blockTime : Option ℕ
  slot : ℕ
  err : Option String
deriving DecidableEq, Repr

/-- A parsed transaction from `getParsedTransaction`: whether `meta` is
non-null, and the program identifier of each instruction. -/
structure ParsedTx where
  metaPresent : Bool
  instructions : List String
deriving DecidableEq, Repr

/-- One row of the history view. -/
structure TxRecord where
  signature : String
  blockTime : ℕ
  slot : ℕ
  txType : String
  status : String
deriving DecidableEq, Repr

/-- The type classification of `fetchTransactions`
(src/components/transaction-history.tsx, lines 38–50): token-program
instruction present ⇒ `"Token"`, else system-program instruction present
⇒ `"SOL Transfer"`, else `"Unknown"`; a null transaction or null `meta`
leaves the initial `"Unknown"`. -/
def classifyTx (tx : Option ParsedTx) : String :=
  match tx with
  | none => "Unknown"
  | some t =>
    if t.metaPresent then
      if tokenProgramId ∈ t.instructions then "Token"
      else if systemProgramId ∈ t.instructions then "SOL Transfer"
      else "Unknown"
    else "Unknown"

/-- One history row (src/components/transaction-history.tsx,
lines 52–58): `status` is `"failed"` exactly when `sig.err` is present. -/
def toTxRecord (sig : SigInfo) (tx : Option ParsedTx) : TxRecord :=
  { signature := sig.signature
    blockTime := sig.blockTime.getD 0
    slot := sig.slot
    txType := classifyTx tx
    status := if sig.err.isSome then "failed" else "confirmed" }

/-- Embedding of `fetchTransactions`: maps the ledger's response
(signature entries paired with their parsed transactions, most recent
first, at most 10 by the `limit: 10` request) to history rows. -/
def fetchTransactions (entries : List (SigInfo × Option ParsedTx)) :
    List TxRecord :=
  entries.map fun e => toTxRecord e.1 e.2

/-- Claim C1 (confirmed): for Mint and Send, for every display amount
(with arbitrary fractional precision, modelled exactly as a rational)
and every decimals value in [0,9], the integer base-unit amount placed
in the built instruction equals `floor(displayAmount × 10^decimals)`. -/
theorem c1_amount_scaling :
    (∀ (p : WalletProps) (s : MintFormState) (o : MintOracle) (v : ℚ)
        (acct : String) (r : MintResult) (tx : List Instr),
      s.tokenDecimals ≤ 9 →
      parseDecQ s.amount = some v →
      o.getOrCreateATA = .ok acct →
      mintToken p s o = some r →
      r.builtTx = some tx →
      tx = [Instr.mintTo s.tokenMintAddress acct p.walletAddress
        (Int.floor (v * (10 : ℚ) ^ s.tokenDecimals))]) ∧
    (∀ (p : WalletProps) (s : SendFormState) (o : SendOracle) (v : ℚ)
        (info : TokenBalance) (sAcct rAcct : String) (r : SendResult)
        (tx : List Instr),
      info.decimals ≤ 9 →
      s.tokenBalances.find? (fun t => t.mint == s.selectedToken) =
        some info →
      parseDecQ s.amount = some v →
      o.getOrCreateSenderATA = .ok sAcct →
      o.getOrCreateRecipientATA = .ok rAcct →
      sendToken p s o = some r →
      r.builtTx = some tx →
      tx = [Instr.transfer sAcct rAcct p.walletAddress
        (Int.floor (v * (10 : ℚ) ^ info.decimals))]) := by
  constructor
  · intro p s o v acct r tx _ hv ha hr htx
    by_cases hval : s.tokenMintAddress = "" ∨ s.amount = ""
    · rw [mintToken_validation_fail p s o hval] at hr
      obtain rfl := Option.some.inj hr
      simp at htx
    · push_neg at hval
      obtain ⟨h1, h2⟩ := hval
      cases hW : o.walletPresent with
      | false =>
        rw [mintToken_no_wallet p s o acct v h1 h2 hv ha hW] at hr
        obtain rfl := Option.some.inj hr
        simp only [mintFailureResult, mintBuiltTx, Option.some.injEq] at htx
        exact htx.symm
      | true =>
        cases hB : o.latestBlockhash with
        | error e =>
          rw [mintToken_blockhash_fail p s o acct v e h1 h2 hv ha hW hB]
            at hr
          obtain rfl := Option.some.inj hr
          simp only [mintFailureResult, mintBuiltTx, Option.some.injEq]
            at htx
          exact htx.symm
        | ok bh =>
          cases hS : o.signTransaction with
          | error e =>
            rw [mintToken_sign_fail p s o acct bh v e h1 h2 hv ha hW hB hS]
              at hr
            obtain rfl := Option.some.inj hr
            simp only [mintFailureResult, mintBuiltTx, Option.some.injEq]
              at htx
            exact htx.symm
          | ok u =>
            cases u
            cases hD : o.sendRawTransaction with
            | error e =>
              rw [mintToken_send_fail p s o acct bh v e h1 h2 hv ha hW hB
                hS hD] at hr
              obtain rfl := Option.some.inj hr
              simp only [mintFailureResult, mintBuiltTx, Option.some.injEq]
                at htx
              exact htx.symm
            | ok sig =>
              cases hC : o.confirmTransaction with
              | error e =>
                rw [mintToken_confirm_fail p s o acct bh sig v e h1 h2 hv
                  ha hW hB hS hD hC] at hr
                obtain rfl := Option.some.inj hr
                simp only [mintFailureResult, mintBuiltTx,
                  Option.some.injEq] at htx
                exact htx.symm
              | ok u2 =>
                cases u2
                rw [mintToken_success p s o acct bh sig v h1 h2 hv ha hW
                  hB hS hD hC] at hr
                obtain rfl := Option.some.inj hr
                simp only [mintBuiltTx, Option.some.injEq] at htx
                exact htx.symm
  · intro p s o v info sAcct rAcct r tx _ hf hv ha hra hr htx
    by_cases hval :
        s.selectedToken = "" ∨ s.recipientAddress = "" ∨ s.amount = ""
    · rw [sendToken_validation_fail p s o hval] at hr
      obtain rfl := Option.some.inj hr
      simp at htx
    · push_neg at hval
      obtain ⟨h1, h2, h3⟩ := hval
      have hV : SendValid s info v := ⟨h1, h2, h3, hf, hv⟩
      cases hW : o.walletPresent with
      | false =>
        rw [sendToken_no_wallet p s o info v sAcct rAcct hV ha hra hW]
          at hr
        obtain rfl := Option.some.inj hr
        simp only [sendFailureResult, sendBuiltTx, Option.some.injEq]
          at htx
        exact htx.symm
      | true =>
        cases hB : o.latestBlockhash with
        | error e =>
          rw [sendToken_blockhash_fail p s o info v sAcct rAcct e hV ha
            hra hW hB] at hr
          obtain rfl := Option.some.inj hr
          simp only [sendFailureResult, sendBuiltTx, Option.some.injEq]
            at htx
          exact htx.symm
        | ok bh =>
          cases hS : o.signTransaction with
          | error e =>
            rw [sendToken_sign_fail p s o info v sAcct rAcct bh e hV ha
              hra hW hB hS] at hr
            obtain rfl := Option.some.inj hr
            simp only [sendFailureResult, sendBuiltTx, Option.some.injEq]
              at htx
            exact htx.symm
          | ok u =>
            cases u
            cases hD : o.sendRawTransaction with
            | error e =>
              rw [sendToken_send_fail p s o info v sAcct rAcct bh e hV ha
                hra hW hB hS hD] at hr
              obtain rfl := Option.some.inj hr
              simp only [sendFailureResult, sendBuiltTx,
                Option.some.injEq] at htx
              exact htx.symm
            | ok sig =>
              cases hC : o.confirmTransaction with
              | error e =>
                rw [sendToken_confirm_fail p s o info v sAcct rAcct bh sig
                  e hV ha hra hW hB hS hD hC] at hr
                obtain rfl := Option.some.inj hr
                simp only [sendFailureResult, sendBuiltTx,
                  Option.some.injEq] at htx
                exact htx.symm
              | ok u2 =>
                cases u2
                rw [sendToken_success p s o info v sAcct rAcct bh sig hV
                  ha hra hW hB hS hD hC] at hr
                obtain rfl := Option.some.inj hr
                simp only [sendBuiltTx, Option.some.injEq] at htx
                exact htx.symm

/-- Witness for `c1_amount_scaling`: mint of "2.5" on a 6-decimal mint
yields base-unit amount 2500000; send of "3.25" of a 2-decimal token
yields base-unit amount 325. -/
theorem c1_witness :
    mintToken ⟨"W1"⟩ ⟨"M1", "2.5", 6, []⟩
        ⟨true, .ok "A1", .ok "B1", .ok (), .ok "G1", .ok ()⟩ =
      some { finalState := ⟨"M1", "", 6, ["M1"]⟩
             notifications :=
               [⟨.success, "Successfully minted 2.5 tokens!"⟩]
             builtTx := some [Instr.mintTo "M1" "A1" "W1" 2500000]
             calls := [.ata, .blockhash, .sign, .send, .confirm]
             persisted := some ["M1"]
             ok := true
             isLoading := false } ∧
    [Instr.mintTo "M1" "A1" "W1" 2500000] =
      [Instr.mintTo "M1" "A1" "W1"
        (Int.floor (((5 : ℚ) / 2) * (10 : ℚ) ^ (6 : ℕ)))] ∧
    sendToken ⟨"W1"⟩ ⟨"R1", "T1", "3.25", [⟨"T1", 10, 2⟩]⟩
        ⟨true, .ok "SA1", .ok "RA1", .ok "B1", .ok (), .ok "G1", .ok ()⟩ =
      some { finalState := ⟨"", "T1", "", [⟨"T1", 10, 2⟩]⟩
             notifications := [⟨.success, "Successfully sent 3.25 tokens!"⟩]
             builtTx := some [Instr.transfer "SA1" "RA1" "W1" 325]
             calls := [.ata, .ataRecipient, .blockhash, .sign, .send,
               .confirm]
             ok := true
             isLoading := false } ∧
    [Instr.transfer "SA1" "RA1" "W1" 325] =
      [Instr.transfer "SA1" "RA1" "W1"
        (Int.floor (((13 : ℚ) / 4) * (10 : ℚ) ^ (2 : ℕ)))] := by
  have hv1 : parseDecQ "2.5" = some ((5 : ℚ) / 2) := by
    simp only [parseDecQ,
      show scanDec "2.5" = some (false, 2, 5, 1) from by decide,
      Option.map_some]
    norm_num
  have hv2 : parseDecQ "3.25" = some ((13 : ℚ) / 4) := by
    simp only [parseDecQ,
      show scanDec "3.25" = some (false, 3, 25, 2) from by decide,
      Option.map_some]
    norm_num
  have key1 : Int.floor (((5 : ℚ) / 2) * (10 : ℚ) ^ (6 : ℕ)) = 2500000 := by
    norm_num
  have key2 : Int.floor (((13 : ℚ) / 4) * (10 : ℚ) ^ (2 : ℕ)) = 325 := by
    norm_num
  have h1 := mintToken_success ⟨"W1"⟩ ⟨"M1", "2.5", 6, []⟩
    ⟨true, .ok "A1", .ok "B1", .ok (), .ok "G1", .ok ()⟩
    "A1" "B1" "G1" ((5 : ℚ) / 2) (by decide) (by decide) hv1
    rfl rfl rfl rfl rfl rfl
  simp only [mintBuiltTx, updatedRecentTokens, key1, mintSuccessMsg,
    List.not_mem_nil, if_false, if_neg, List.take_succ_cons,
    List.take_nil] at h1
  have hV2 : SendValid ⟨"R1", "T1", "3.25", [⟨"T1", 10, 2⟩]⟩
      ⟨"T1", 10, 2⟩ ((13 : ℚ) / 4) :=
    ⟨by decide, by decide, by decide, rfl, hv2⟩
  have h2 := sendToken_success ⟨"W1"⟩ ⟨"R1", "T1", "3.25", [⟨"T1", 10, 2⟩]⟩
    ⟨true, .ok "SA1", .ok "RA1", .ok "B1", .ok (), .ok "G1", .ok ()⟩
    ⟨"T1", 10, 2⟩ ((13 : ℚ) / 4) "SA1" "RA1" "B1" "G1" hV2
    rfl rfl rfl rfl rfl rfl rfl
  simp only [sendBuiltTx, key2, sendSuccessMsg] at h2
  refine ⟨h1, ?_, h2, ?_⟩
  · exact (c1_amount_scaling.1 ⟨"W1"⟩ ⟨"M1", "2.5", 6, []⟩
      ⟨true, .ok "A1", .ok "B1", .ok (), .ok "G1", .ok ()⟩ ((5 : ℚ) / 2)
      "A1" _ _ (by norm_num) hv1 rfl h1 rfl)
  · exact (c1_amount_scaling.2 ⟨"W1"⟩ ⟨"R1", "T1", "3.25", [⟨"T1", 10, 2⟩]⟩
      ⟨true, .ok "SA1", .ok "RA1", .ok "B1", .ok (), .ok "G1", .ok ()⟩
      ((13 : ℚ) / 4) ⟨"T1", 10, 2⟩ "SA1" "RA1" _ _ (by norm_num) rfl hv2
      rfl rfl h2 rfl)

/-- Claim C2, as stated, is false: the source guards only check field
NON-EMPTINESS (`if (!tokenMintAddress || !amount)`), never that the
amount is numeric and non-negative.  With the negative amount `"-1"`
(which parses to −1) validation passes and the lifecycle proceeds to
Building — indeed all the way to a submitted mint-to instruction with
base-unit amount −10⁹. -/
theorem c2_counterexample :
    parseDecQ "-1" = some (-1 : ℚ) ∧
    mintToken ⟨"W1"⟩ ⟨"M1", "-1", 9, []⟩
        ⟨true, .ok "A1", .ok "B1", .ok (), .ok "G1", .ok ()⟩ =
      some { finalState := ⟨"M1", "", 9, ["M1"]⟩
             notifications := [⟨.success, "Successfully minted -1 tokens!"⟩]
             builtTx := some [Instr.mintTo "M1" "A1" "W1" (-1000000000)]
             calls := [.ata, .blockhash, .sign, .send, .confirm]
             persisted := some ["M1"]
             ok := true
             isLoading := false } := by
  have hv : parseDecQ "-1" = some (-1 : ℚ) := by
    simp only [parseDecQ,
      show scanDec "-1" = some (true, 1, 0, 0) from by decide,
      Option.map_some]
    norm_num
  have key : Int.floor ((-1 : ℚ) * (10 : ℚ) ^ (9 : ℕ)) = -1000000000 := by
    norm_num
  have h1 := mintToken_success ⟨"W1"⟩ ⟨"M1", "-1", 9, []⟩
    ⟨true, .ok "A1", .ok "B1", .ok (), .ok "G1", .ok ()⟩
    "A1" "B1" "G1" (-1 : ℚ) (by decide) (by decide) hv
    rfl rfl rfl rfl rfl rfl
  simp only [mintBuiltTx, updatedRecentTokens, key, mintSuccessMsg,
    List.not_mem_nil, if_false, if_neg, List.take_succ_cons,
    List.take_nil] at h1
  exact ⟨hv, h1⟩

/-- Claim C2 (amended): for each write operation (Create, Mint, Send),
the lifecycle never proceeds from Validating to Building when any
required field is EMPTY; that failure produces exactly the static
`InvalidInput` notification and returns to Idle with no side effects —
no collaborator call, no built transaction, no state change, nothing
persisted.  Non-numeric or negative amounts are NOT rejected by this
guard (see the counterexample). -/
theorem c2_validation_guard :
    (∀ (p : WalletProps) (s : MintFormState) (o : MintOracle),
      s.tokenMintAddress = "" ∨ s.amount = "" →
      mintToken p s o =
        some { finalState := s
               notifications := [⟨.error, fillFieldsMsg⟩]
               builtTx := none
               calls := []
               persisted := none
               ok := false
               isLoading := false }) ∧
    (∀ (p : WalletProps) (s : SendFormState) (o : SendOracle),
      s.selectedToken = "" ∨ s.recipientAddress = "" ∨ s.amount = "" →
      sendToken p s o =
        some { finalState := s
               notifications := [⟨.error, fillFieldsMsg⟩]
               builtTx := none
               calls := []
               ok := false
               isLoading := false }) ∧
    (∀ (p : WalletProps) (s : CreateFormState) (o : CreateOracle),
      s.tokenName = "" ∨ s.tokenSymbol = "" ∨ s.decimals = "" →
      createToken p s o =
        some { createdTokenMint := none
               notifications := [⟨.error, fillFieldsMsg⟩]
               builtTx := none
               calls := []
               ok := false
               isLoading := false }) :=
  ⟨mintToken_validation_fail, sendToken_validation_fail,
    createToken_validation_fail⟩

/-- Witness for `c2_validation_guard` at concrete empty-field states. -/
theorem c2_witness :
    mintToken ⟨"W1"⟩ ⟨"", "5", 9, ["M0"]⟩
        ⟨true, .ok "A1", .ok "B1", .ok (), .ok "G1", .ok ()⟩ =
      some { finalState := ⟨"", "5", 9, ["M0"]⟩
             notifications := [⟨.error, fillFieldsMsg⟩]
             builtTx := none
             calls := []
             persisted := none
             ok := false
             isLoading := false } ∧
    sendToken ⟨"W1"⟩ ⟨"", "T1", "5", []⟩
        ⟨true, .ok "SA", .ok "RA", .ok "B1", .ok (), .ok "G1", .ok ()⟩ =
      some { finalState := ⟨"", "T1", "5", []⟩
             notifications := [⟨.error, fillFieldsMsg⟩]
             builtTx := none
             calls := []
             ok := false
             isLoading := false } ∧
    createToken ⟨"W1"⟩ ⟨"Demo", "", "9"⟩ ⟨"NM", .ok ()⟩ =
      some { createdTokenMint := none
             notifications := [⟨.error, fillFieldsMsg⟩]
             builtTx := none
             calls := []
             ok := false
             isLoading := false } :=
  ⟨c2_validation_guard.1 _ _ _ (Or.inl rfl),
    c2_validation_guard.2.1 _ _ _ (Or.inr (Or.inl rfl)),
    c2_validation_guard.2.2 _ _ _ (Or.inr (Or.inl rfl))⟩

/-- Claim C3, as stated, is false in its duplicate clause: a successful
mint whose address is already in the recency list leaves the list
UNCHANGED (the source only updates the list inside
`if (!recentTokens.includes(tokenMintAddress))`), it does not move the
address to the front.  Concretely, minting `"B"` with list `["A", "B"]`
leaves `["A", "B"]` and persists nothing. -/
theorem c3_counterexample :
    mintToken ⟨"W1"⟩ ⟨"B", "1", 0, ["A", "B"]⟩
        ⟨true, .ok "A1", .ok "B1", .ok (), .ok "G1", .ok ()⟩ =
      some { finalState := ⟨"B", "", 0, ["A", "B"]⟩
             notifications := [⟨.success, "Successfully minted 1 tokens!"⟩]
             builtTx := some [Instr.mintTo "B" "A1" "W1" 1]
             calls := [.ata, .blockhash, .sign, .send, .confirm]
             persisted := none
             ok := true
             isLoading := false } ∧
    (["A", "B"] : List String) ≠ ["B", "A"] := by
  have hv : parseDecQ "1" = some (1 : ℚ) := by
    simp only [parseDecQ,
      show scanDec "1" = some (false, 1, 0, 0) from by decide,
      Option.map_some]
    norm_num
  have key : Int.floor ((1 : ℚ) * (10 : ℚ) ^ (0 : ℕ)) = 1 := by norm_num
  have h1 := mintToken_success ⟨"W1"⟩ ⟨"B", "1", 0, ["A", "B"]⟩
    ⟨true, .ok "A1", .ok "B1", .ok (), .ok "G1", .ok ()⟩
    "A1" "B1" "G1" (1 : ℚ) (by decide) (by decide) hv
    rfl rfl rfl rfl rfl rfl
  have hmem : "B" ∈ (["A", "B"] : List String) := by decide
  simp only [mintBuiltTx, updatedRecentTokens, key, mintSuccessMsg,
    if_pos hmem] at h1
  exact ⟨h1, by decide⟩

/-- Claim C3 (amended): on a successful mint, starting from a recency
list of 5 distinct entries, a 6th DISTINCT address is inserted at the
front and the oldest (last) entry is dropped, preserving order and
size 5 ≤ 5; a mint whose address is ALREADY in the list leaves the list
unchanged (it is not moved to the front), and nothing is re-persisted. -/
theorem c3_recency_list (p : WalletProps) (s : MintFormState)
    (o : MintOracle) (acct bh sig : String) (v : ℚ) (r : MintResult)
    (h1 : s.tokenMintAddress ≠ "") (h2 : s.amount ≠ "")
    (hv : parseDecQ s.amount = some v)
    (ha : o.getOrCreateATA = .ok acct)
    (hw : o.walletPresent = true)
    (hb : o.latestBlockhash = .ok bh)
    (hs : o.signTransaction = .ok ())
    (hd : o.sendRawTransaction = .ok sig)
    (hc : o.confirmTransaction = .ok ())
    (hr : mintToken p s o = some r) :
    (s.recentTokens.length = 5 → s.recentTokens.Nodup →
      s.tokenMintAddress ∉ s.recentTokens →
      r.finalState.recentTokens =
        s.tokenMintAddress :: s.recentTokens.dropLast ∧
      r.finalState.recentTokens.length = 5) ∧
    (s.tokenMintAddress ∈ s.recentTokens →
      r.finalState.recentTokens = s.recentTokens ∧ r.persisted = none) := by
  rw [mintToken_success p s o acct bh sig v h1 h2 hv ha hw hb hs hd hc]
    at hr
  obtain rfl := Option.some.inj hr
  constructor
  · intro hlen _ hnmem
    simp only [updatedRecentTokens, if_neg hnmem]
    have htk : (s.tokenMintAddress :: s.recentTokens).take 5 =
        s.tokenMintAddress :: s.recentTokens.take 4 := rfl
    rw [htk, List.dropLast_eq_take, hlen]
    refine ⟨rfl, ?_⟩
    simp [List.length_take, hlen]
  · intro hmem
    exact ⟨by simp [updatedRecentTokens, hmem], by simp [hmem]⟩

/-- Witness for `c3_recency_list`: a 6th distinct address on a full
recency list drops the oldest entry; a duplicate leaves the list as is. -/
theorem c3_witness :
    (["F"] ++ ["A", "B", "C", "D"] : List String) =
      "F" :: (["A", "B", "C", "D", "E"] : List String).dropLast ∧
    mintToken ⟨"W1"⟩ ⟨"F", "1", 0, ["A", "B", "C", "D", "E"]⟩
        ⟨true, .ok "A1", .ok "B1", .ok (), .ok "G1", .ok ()⟩ =
      some { finalState := ⟨"F", "", 0, ["F", "A", "B", "C", "D"]⟩
             notifications := [⟨.success, "Successfully minted 1 tokens!"⟩]
             builtTx := some [Instr.mintTo "F" "A1" "W1" 1]
             calls := [.ata, .blockhash, .sign, .send, .confirm]
             persisted := some ["F", "A", "B", "C", "D"]
             ok := true
             isLoading := false } ∧
    (["F", "A", "B", "C", "D"] : List String).length = 5 := by
  have hv : parseDecQ "1" = some (1 : ℚ) := by
    simp only [parseDecQ,
      show scanDec "1" = some (false, 1, 0, 0) from by decide,
      Option.map_some]
    norm_num
  have key : Int.floor ((1 : ℚ) * (10 : ℚ) ^ (0 : ℕ)) = 1 := by norm_num
  have h1 := mintToken_success ⟨"W1"⟩ ⟨"F", "1", 0, ["A", "B", "C", "D", "E"]⟩
    ⟨true, .ok "A1", .ok "B1", .ok (), .ok "G1", .ok ()⟩
    "A1" "B1" "G1" (1 : ℚ) (by decide) (by decide) hv
    rfl rfl rfl rfl rfl rfl
  have hshape := c3_recency_list ⟨"W1"⟩ ⟨"F", "1", 0, ["A", "B", "C", "D", "E"]⟩
    ⟨true, .ok "A1", .ok "B1", .ok (), .ok "G1", .ok ()⟩
    "A1" "B1" "G1" (1 : ℚ) _ (by decide) (by decide) hv
    rfl rfl rfl rfl rfl rfl h1
  obtain ⟨hfront, hlen⟩ := hshape.1 (by decide) (by decide) (by decide)
  refine ⟨?_, ?_, ?_⟩
  · decide
  · have hnmem : "F" ∉ (["A", "B", "C", "D", "E"] : List String) := by
      decide
    simp only [mintBuiltTx, updatedRecentTokens, key, mintSuccessMsg,
      if_neg hnmem] at h1
    exact h1
  · decide

/-- Claim C4 (confirmed): for Mint and Send, when the wallet's
sign-transaction request fails (user rejects in the external wallet),
the lifecycle returns exactly to Idle: `sendRawTransaction` is never
called, the form state (including the recency list) is unchanged,
nothing is persisted, loading is cleared, and only the static error
notification is shown. -/
theorem c4_signing_rejected :
    (∀ (p : WalletProps) (s : MintFormState) (o : MintOracle)
        (acct bh : String) (v : ℚ) (e : String) (r : MintResult),
      s.tokenMintAddress ≠ "" → s.amount ≠ "" →
      parseDecQ s.amount = some v →
      o.getOrCreateATA = .ok acct →
      o.walletPresent = true →
      o.latestBlockhash = .ok bh →
      o.signTransaction = .error e →
      mintToken p s o = some r →
      CallTag.send ∉ r.calls ∧ r.finalState = s ∧
        r.finalState.recentTokens = s.recentTokens ∧ r.persisted = none ∧
        r.isLoading = false ∧ r.ok = false ∧
        r.notifications = [⟨.error, mintFailMsg⟩]) ∧
    (∀ (p : WalletProps) (s : SendFormState) (o : SendOracle)
        (info : TokenBalance) (v : ℚ) (sAcct rAcct bh e : String)
        (r : SendResult),
      SendValid s info v →
      o.getOrCreateSenderATA = .ok sAcct →
      o.getOrCreateRecipientATA = .ok rAcct →
      o.walletPresent = true →
      o.latestBlockhash = .ok bh →
      o.signTransaction = .error e →
      sendToken p s o = some r →
      CallTag.send ∉ r.calls ∧ r.finalState = s ∧ r.isLoading = false ∧
        r.ok = false ∧ r.notifications = [⟨.error, sendFailMsg⟩]) := by
  constructor
  · intro p s o acct bh v e r h1 h2 hv ha hw hb hs hr
    rw [mintToken_sign_fail p s o acct bh v e h1 h2 hv ha hw hb hs] at hr
    obtain rfl := Option.some.inj hr
    exact ⟨show CallTag.send ∉
      [CallTag.ata, CallTag.blockhash, CallTag.sign] by decide,
      rfl, rfl, rfl, rfl, rfl, rfl⟩
  · intro p s o info v sAcct rAcct bh e r hV ha hra hw hb hs hr
    rw [sendToken_sign_fail p s o info v sAcct rAcct bh e hV ha hra hw hb
      hs] at hr
    obtain rfl := Option.some.inj hr
    exact ⟨show CallTag.send ∉
      [CallTag.ata, CallTag.ataRecipient, CallTag.blockhash, CallTag.sign]
        by decide,
      rfl, rfl, rfl, rfl⟩

/-- Witness for `c4_signing_rejected` at a concrete rejected signature:
the mint run keeps its 2-entry recency list, submits nothing, and shows
only the static failure message; likewise for send. -/
theorem c4_witness :
    mintToken ⟨"W1"⟩ ⟨"M1", "2.5", 6, ["A", "B"]⟩
        ⟨true, .ok "A1", .ok "B1", .error "user rejected", .ok "G1",
          .ok ()⟩ =
      some (mintFailureResult ⟨"M1", "2.5", 6, ["A", "B"]⟩
        (some (mintBuiltTx ⟨"W1"⟩ ⟨"M1", "2.5", 6, ["A", "B"]⟩ "A1"
          ((5 : ℚ) / 2)))
        [.ata, .blockhash, .sign]) ∧
    CallTag.send ∉ ([.ata, .blockhash, .sign] : List CallTag) ∧
    (mintFailureResult ⟨"M1", "2.5", 6, ["A", "B"]⟩
        (some (mintBuiltTx ⟨"W1"⟩ ⟨"M1", "2.5", 6, ["A", "B"]⟩ "A1"
          ((5 : ℚ) / 2)))
        [.ata, .blockhash, .sign]).finalState.recentTokens = ["A", "B"] ∧
    sendToken ⟨"W1"⟩ ⟨"R1", "T1", "3.25", [⟨"T1", 10, 2⟩]⟩
        ⟨true, .ok "SA1", .ok "RA1", .ok "B1", .error "user rejected",
          .ok "G1", .ok ()⟩ =
      some (sendFailureResult ⟨"R1", "T1", "3.25", [⟨"T1", 10, 2⟩]⟩
        (some (sendBuiltTx ⟨"W1"⟩ "SA1" "RA1" ⟨"T1", 10, 2⟩
          ((13 : ℚ) / 4)))
        [.ata, .ataRecipient, .blockhash, .sign]) := by
  have hv1 : parseDecQ "2.5" = some ((5 : ℚ) / 2) := by
    simp only [parseDecQ,
      show scanDec "2.5" = some (false, 2, 5, 1) from by decide,
      Option.map_some]
    norm_num
  have hv2 : parseDecQ "3.25" = some ((13 : ℚ) / 4) := by
    simp only [parseDecQ,
      show scanDec "3.25" = some (false, 3, 25, 2) from by decide,
      Option.map_some]
    norm_num
  have h1 := mintToken_sign_fail ⟨"W1"⟩ ⟨"M1", "2.5", 6, ["A", "B"]⟩
    ⟨true, .ok "A1", .ok "B1", .error "user rejected", .ok "G1", .ok ()⟩
    "A1" "B1" ((5 : ℚ) / 2) "user rejected" (by decide) (by decide) hv1
    rfl rfl rfl rfl
  have h2 := sendToken_sign_fail ⟨"W1"⟩ ⟨"R1", "T1", "3.25", [⟨"T1", 10, 2⟩]⟩
    ⟨true, .ok "SA1", .ok "RA1", .ok "B1", .error "user rejected",
      .ok "G1", .ok ()⟩
    ⟨"T1", 10, 2⟩ ((13 : ℚ) / 4) "SA1" "RA1" "B1" "user rejected"
    ⟨by decide, by decide, by decide, rfl, hv2⟩ rfl rfl rfl rfl rfl
  have hprops := c4_signing_rejected.1 ⟨"W1"⟩ ⟨"M1", "2.5", 6, ["A", "B"]⟩
    ⟨true, .ok "A1", .ok "B1", .error "user rejected", .ok "G1", .ok ()⟩
    "A1" "B1" ((5 : ℚ) / 2) "user rejected" _ (by decide) (by decide) hv1
    rfl rfl rfl rfl h1
  exact ⟨h1, hprops.1, hprops.2.2.1, h2⟩

/-- Claim C5, as stated, is false: when the metadata lookup fails (or
the address is not yet ≥ 32 characters), `fetchTokenDecimals` KEEPS the
current `tokenDecimals` state rather than using 9.  After a successful
fetch of a 6-decimal mint, entering an unresolved address leaves the
scaling decimals at 6, not 9. -/
theorem c5_counterexample :
    fetchTokenDecimals "AAAAAAAAAAAAAAAAAAAAAAAAAAAAAAAA"
      initialTokenDecimals (.ok 6) = 6 ∧
    fetchTokenDecimals "short" 6 (.error "lookup failed") = 6 ∧
    fetchTokenDecimals "AAAAAAAAAAAAAAAAAAAAAAAAAAAAAAAA" 6
      (.error "lookup failed") = 6 ∧
    (6 : ℕ) ≠ 9 := by
  refine ⟨?_, ?_, ?_, by decide⟩ <;>
    simp [fetchTokenDecimals, initialTokenDecimals, String.length]

/-- Claim C5 (amended): the Mint operation re-reads the decimals from
the mint's on-chain metadata when an address of length ≥ 32 is entered
and uses the fetched value; when the lookup fails or the address is
empty/shorter than 32 characters, the PREVIOUS `tokenDecimals` value is
retained.  The initial value is 9, so 9 is the scaling default only
until some fetch succeeds. -/
theorem c5_decimals_fetch :
    initialTokenDecimals = 9 ∧
    (∀ (a : String) (cur : ℕ) (g : Except String ℕ),
      a = "" ∨ a.length < 32 → fetchTokenDecimals a cur g = cur) ∧
    (∀ (a : String) (cur : ℕ) (e : String),
      fetchTokenDecimals a cur (.error e) = cur) ∧
    (∀ (a : String) (cur d : ℕ),
      a ≠ "" → ¬ a.length < 32 → fetchTokenDecimals a cur (.ok d) = d) := by
  refine ⟨rfl, ?_, ?_, ?_⟩
  · intro a cur g h
    unfold fetchTokenDecimals
    rw [if_pos h]
  · intro a cur e
    unfold fetchTokenDecimals
    split
    · rfl
    · rfl
  · intro a cur d h1 h2
    unfold fetchTokenDecimals
    rw [if_neg (not_or.mpr ⟨h1, h2⟩)]

/-- Witness for `c5_decimals_fetch` at concrete inputs. -/
theorem c5_witness :
    fetchTokenDecimals "short" 7 (.ok 3) = 7 ∧
    fetchTokenDecimals "BBBBBBBBBBBBBBBBBBBBBBBBBBBBBBBB" 7
      (.error "boom") = 7 ∧
    fetchTokenDecimals "BBBBBBBBBBBBBBBBBBBBBBBBBBBBBBBB" 7 (.ok 3) = 3 :=
  ⟨c5_decimals_fetch.2.1 "short" 7 (.ok 3) (Or.inr (by decide)),
    c5_decimals_fetch.2.2.1 "BBBBBBBBBBBBBBBBBBBBBBBBBBBBBBBB" 7 "boom",
    c5_decimals_fetch.2.2.2 "BBBBBBBBBBBBBBBBBBBBBBBBBBBBBBBB" 7 3
      (by decide) (by decide)⟩

/-- Claim C6, as stated, is false: classification is guarded by
`if (tx?.meta && ...)` (src/components/transaction-history.tsx, line 41),
so a returned transaction whose `meta` is null is classified `"Unknown"`
even when its instructions include the token-program identifier —
contradicting the claim's rule that such a transaction is classified
Token. -/
theorem c6_counterexample :
    (toTxRecord ⟨"s3", none, 102, none⟩
      (some ⟨false, [tokenProgramId]⟩)).txType = "Unknown" ∧
    (toTxRecord ⟨"s3", none, 102, none⟩
      (some ⟨false, [tokenProgramId]⟩)).txType ≠ "Token" ∧
    tokenProgramId ∈ [tokenProgramId] := by
  decide

/-- Claim C6 (amended): each history row produced by the History Reader
classifies a DECODED transaction (one returned with its `meta` present)
as `"Token"` exactly when the token-program identifier occurs among its
instructions, otherwise as `"SOL Transfer"` (the NativeTransfer kind)
exactly when the system-program identifier occurs, otherwise as
`"Unknown"`; a null transaction, or one whose `meta` is null, is
classified `"Unknown"` regardless of its instructions; the row's status
is `"failed"` iff the ledger's error field is present and `"confirmed"`
otherwise; and the reader maps the ledger's (most-recent-first, at most
10) response one-to-one, preserving order and count. -/
theorem c6_history_classification :
    (∀ sig : SigInfo, (toTxRecord sig none).txType = "Unknown") ∧
    (∀ (sig : SigInfo) (t : ParsedTx), t.metaPresent = false →
      (toTxRecord sig (some t)).txType = "Unknown") ∧
    (∀ (sig : SigInfo) (t : ParsedTx), t.metaPresent = true →
      ((toTxRecord sig (some t)).txType = "Token" ↔
        tokenProgramId ∈ t.instructions) ∧
      ((toTxRecord sig (some t)).txType = "SOL Transfer" ↔
        tokenProgramId ∉ t.instructions ∧
          systemProgramId ∈ t.instructions) ∧
      ((toTxRecord sig (some t)).txType = "Unknown" ↔
        tokenProgramId ∉ t.instructions ∧
          systemProgramId ∉ t.instructions)) ∧
    (∀ (sig : SigInfo) (tx : Option ParsedTx),
      ((toTxRecord sig tx).status = "failed" ↔ sig.err.isSome) ∧
      ((toTxRecord sig tx).status = "confirmed" ↔ sig.err = none)) ∧
    (∀ entries : List (SigInfo × Option ParsedTx), entries.length ≤ 10 →
      (fetchTransactions entries).length ≤ 10) ∧
    (∀ entries : List (SigInfo × Option ParsedTx),
      (fetchTransactions entries).map (fun r => r.signature) =
        entries.map (fun e => e.1.signature)) := by
  refine ⟨?_, ?_, ?_, ?_, ?_, ?_⟩
  · intro sig
    rfl
  · intro sig t hm
    simp [toTxRecord, classifyTx, hm]
  · intro sig t hm
    refine ⟨?_, ?_, ?_⟩ <;>
      by_cases h1 : tokenProgramId ∈ t.instructions <;>
      by_cases h2 : systemProgramId ∈ t.instructions <;>
      simp [toTxRecord, classifyTx, hm, h1, h2]
  · intro sig tx
    cases he : sig.err <;>
      simp [toTxRecord, he]
  · intro entries h
    simpa [fetchTransactions] using h
  · intro entries
    simp only [fetchTransactions, List.map_map]
    rfl

/-- Witness for `c6_history_classification` at concrete ledger rows: a
decoded transaction containing the token-program id is a `"Token"` row,
one containing only the system-program id is a `"SOL Transfer"` row, a
meta-null transaction is an `"Unknown"` row, an entry with an error is
`"failed"`, one without is `"confirmed"`. -/
theorem c6_witness :
    (toTxRecord ⟨"s1", some 5, 100, none⟩
      (some ⟨true, [tokenProgramId, systemProgramId]⟩)).txType = "Token" ∧
    (toTxRecord ⟨"s2", none, 101, some "err"⟩
      (some ⟨true, [systemProgramId]⟩)).txType = "SOL Transfer" ∧
    (toTxRecord ⟨"s3", none, 102, none⟩
      (some ⟨false, [tokenProgramId]⟩)).txType = "Unknown" ∧
    (toTxRecord ⟨"s2", none, 101, some "err"⟩
      (some ⟨true, [systemProgramId]⟩)).status = "failed" ∧
    (toTxRecord ⟨"s1", some 5, 100, none⟩
      (some ⟨true, [tokenProgramId, systemProgramId]⟩)).status =
      "confirmed" ∧
    (fetchTransactions [(⟨"s1", some 5, 100, none⟩, none)]).length ≤ 10 := by
  refine ⟨?_, ?_, ?_, ?_, ?_, ?_⟩
  · exact (c6_history_classification.2.2.1 ⟨"s1", some 5, 100, none⟩
      ⟨true, [tokenProgramId, systemProgramId]⟩ rfl).1.mpr (by decide)
  · exact (c6_history_classification.2.2.1 ⟨"s2", none, 101, some "err"⟩
      ⟨true, [systemProgramId]⟩ rfl).2.1.mpr (by decide)
  · exact c6_history_classification.2.1 ⟨"s3", none, 102, none⟩
      ⟨false, [tokenProgramId]⟩ rfl
  · exact (c6_history_classification.2.2.2.1 ⟨"s2", none, 101, some "err"⟩
      (some ⟨true, [systemProgramId]⟩)).1.mpr rfl
  · exact (c6_history_classification.2.2.2.1 ⟨"s1", some 5, 100, none⟩
      (some ⟨true, [tokenProgramId, systemProgramId]⟩)).2.mpr rfl
  · exact c6_history_classification.2.2.2.2.1
      [(⟨"s1", some 5, 100, none⟩, none)] (by decide)

/-- Claim C7 (confirmed): for every validated invocation of Create,
Mint or Send and EVERY outcome of the collaborator boundary (all error
payloads quantified), the run emits exactly one user-facing
notification; whenever the run fails, that notification is the
operation's STATIC error message — a constant not depending on any
collaborator error text — and no collaborator call is ever repeated
within the invocation (no automatic retry). -/
theorem c7_failure_policy :
    (∀ (p : WalletProps) (s : MintFormState) (o : MintOracle)
        (r : MintResult),
      s.tokenMintAddress ≠ "" → s.amount ≠ "" →
      mintToken p s o = some r →
      r.notifications.length = 1 ∧ r.calls.Nodup ∧
        (r.ok = false → r.notifications = [⟨.error, mintFailMsg⟩])) ∧
    (∀ (p : WalletProps) (s : SendFormState) (o : SendOracle)
        (r : SendResult),
      s.selectedToken ≠ "" → s.recipientAddress ≠ "" → s.amount ≠ "" →
      sendToken p s o = some r →
      r.notifications.length = 1 ∧ r.calls.Nodup ∧
        (r.ok = false → r.notifications = [⟨.error, sendFailMsg⟩])) ∧
    (∀ (p : WalletProps) (s : CreateFormState) (o : CreateOracle)
        (r : CreateResult),
      s.tokenName ≠ "" → s.tokenSymbol ≠ "" → s.decimals ≠ "" →
      createToken p s o = some r →
      r.notifications.length = 1 ∧ r.calls.Nodup ∧
        (r.ok = false → r.notifications = [⟨.error, createFailMsg⟩])) := by
  refine ⟨?_, ?_, ?_⟩
  · intro p s o r h1 h2 hr
    cases hA : o.getOrCreateATA with
    | error e =>
      rw [mintToken_ata_fail p s o e h1 h2 hA] at hr
      obtain rfl := Option.some.inj hr
      exact ⟨rfl, show List.Nodup [CallTag.ata] by decide, fun _ => rfl⟩
    | ok acct =>
      cases hv : parseDecQ s.amount with
      | none =>
        exfalso
        unfold mintToken at hr
        rw [if_neg (not_or.mpr ⟨h1, h2⟩), hA, hv] at hr
        exact Option.noConfusion hr
      | some v =>
        cases hW : o.walletPresent with
        | false =>
          rw [mintToken_no_wallet p s o acct v h1 h2 hv hA hW] at hr
          obtain rfl := Option.some.inj hr
          exact ⟨rfl, show List.Nodup [CallTag.ata] by decide, fun _ => rfl⟩
        | true =>
          cases hB : o.latestBlockhash with
          | error e =>
            rw [mintToken_blockhash_fail p s o acct v e h1 h2 hv hA hW hB]
              at hr
            obtain rfl := Option.some.inj hr
            exact ⟨rfl,
              show List.Nodup [CallTag.ata, CallTag.blockhash] by decide,
              fun _ => rfl⟩
          | ok bh =>
            cases hS : o.signTransaction with
            | error e =>
              rw [mintToken_sign_fail p s o acct bh v e h1 h2 hv hA hW hB
                hS] at hr
              obtain rfl := Option.some.inj hr
              exact ⟨rfl,
                show List.Nodup [CallTag.ata, CallTag.blockhash,
                  CallTag.sign] by decide,
                fun _ => rfl⟩
            | ok u =>
              cases u
              cases hD : o.sendRawTransaction with
              | error e =>
                rw [mintToken_send_fail p s o acct bh v e h1 h2 hv hA hW
                  hB hS hD] at hr
                obtain rfl := Option.some.inj hr
                exact ⟨rfl,
                  show List.Nodup [CallTag.ata, CallTag.blockhash,
                    CallTag.sign, CallTag.send] by decide,
                  fun _ => rfl⟩
              | ok sig =>
                cases hC : o.confirmTransaction with
                | error e =>
                  rw [mintToken_confirm_fail p s o acct bh sig v e h1 h2
                    hv hA hW hB hS hD hC] at hr
                  obtain rfl := Option.some.inj hr
                  exact ⟨rfl,
                    show List.Nodup [CallTag.ata, CallTag.blockhash,
                      CallTag.sign, CallTag.send, CallTag.confirm]
                      by decide,
                    fun _ => rfl⟩
                | ok u2 =>
                  cases u2
                  rw [mintToken_success p s o acct bh sig v h1 h2 hv hA hW
                    hB hS hD hC] at hr
                  obtain rfl := Option.some.inj hr
                  refine ⟨rfl,
                    show List.Nodup [CallTag.ata, CallTag.blockhash,
                      CallTag.sign, CallTag.send, CallTag.confirm]
                      by decide,
                    fun hok => ?_⟩
                  simp at hok
  · intro p s o r h1 h2 h3 hr
    cases hF : s.tokenBalances.find? (fun t => t.mint == s.selectedToken)
      with
    | none =>
      rw [sendToken_not_found p s o h1 h2 h3 hF] at hr
      obtain rfl := Option.some.inj hr
      exact ⟨rfl, List.nodup_nil, fun _ => rfl⟩
    | some info =>
      cases hv : parseDecQ s.amount with
      | none =>
        exfalso
        unfold sendToken at hr
        rw [if_neg (by simp [h1, h2, h3]), hF, hv] at hr
        exact Option.noConfusion hr
      | some v =>
        have hV : SendValid s info v := ⟨h1, h2, h3, hF, hv⟩
        cases hSA : o.getOrCreateSenderATA with
        | error e =>
          rw [sendToken_senderAta_fail p s o info v e hV hSA] at hr
          obtain rfl := Option.some.inj hr
          exact ⟨rfl, show List.Nodup [CallTag.ata] by decide, fun _ => rfl⟩
        | ok sAcct =>
          cases hRA : o.getOrCreateRecipientATA with
          | error e =>
            rw [sendToken_recipAta_fail p s o info v sAcct e hV hSA hRA]
              at hr
            obtain rfl := Option.some.inj hr
            exact ⟨rfl,
              show List.Nodup [CallTag.ata, CallTag.ataRecipient] by decide,
              fun _ => rfl⟩
          | ok rAcct =>
            cases hW : o.walletPresent with
            | false =>
              rw [sendToken_no_wallet p s o info v sAcct rAcct hV hSA hRA
                hW] at hr
              obtain rfl := Option.some.inj hr
              exact ⟨rfl,
                show List.Nodup [CallTag.ata, CallTag.ataRecipient]
                  by decide,
                fun _ => rfl⟩
            | true =>
              cases hB : o.latestBlockhash with
              | error e =>
                rw [sendToken_blockhash_fail p s o info v sAcct rAcct e hV
                  hSA hRA hW hB] at hr
                obtain rfl := Option.some.inj hr
                exact ⟨rfl,
                  show List.Nodup [CallTag.ata, CallTag.ataRecipient,
                    CallTag.blockhash] by decide,
                  fun _ => rfl⟩
              | ok bh =>
                cases hS : o.signTransaction with
                | error e =>
                  rw [sendToken_sign_fail p s o info v sAcct rAcct bh e hV
                    hSA hRA hW hB hS] at hr
                  obtain rfl := Option.some.inj hr
                  exact ⟨rfl,
                    show List.Nodup [CallTag.ata, CallTag.ataRecipient,
                      CallTag.blockhash, CallTag.sign] by decide,
                    fun _ => rfl⟩
                | ok u =>
                  cases u
                  cases hD : o.sendRawTransaction with
                  | error e =>
                    rw [sendToken_send_fail p s o info v sAcct rAcct bh e
                      hV hSA hRA hW hB hS hD] at hr
                    obtain rfl := Option.some.inj hr
                    exact ⟨rfl,
                      show List.Nodup [CallTag.ata, CallTag.ataRecipient,
                        CallTag.blockhash, CallTag.sign, CallTag.send]
                        by decide,
                      fun _ => rfl⟩
                  | ok sig =>
                    cases hC : o.confirmTransaction with
                    | error e =>
                      rw [sendToken_confirm_fail p s o info v sAcct rAcct
                        bh sig e hV hSA hRA hW hB hS hD hC] at hr
                      obtain rfl := Option.some.inj hr
                      exact ⟨rfl,
                        show List.Nodup [CallTag.ata, CallTag.ataRecipient,
                          CallTag.blockhash, CallTag.sign, CallTag.send,
                          CallTag.confirm] by decide,
                        fun _ => rfl⟩
                    | ok u2 =>
                      cases u2
                      rw [sendToken_success p s o info v sAcct rAcct bh
                        sig hV hSA hRA hW hB hS hD hC] at hr
                      obtain rfl := Option.some.inj hr
                      refine ⟨rfl,
                        show List.Nodup [CallTag.ata, CallTag.ataRecipient,
                          CallTag.blockhash, CallTag.sign, CallTag.send,
                          CallTag.confirm] by decide,
                        fun hok => ?_⟩
                      simp at hok
  · intro p s o r h1 h2 h3 hr
    cases hd : parseIntNat s.decimals with
    | none =>
      exfalso
      unfold createToken at hr
      rw [if_neg (by simp [h1, h2, h3]), hd] at hr
      exact Option.noConfusion hr
    | some d =>
      cases hC : o.createMint with
      | error e =>
        rw [createToken_fail p s o d e h1 h2 h3 hd hC] at hr
        obtain rfl := Option.some.inj hr
        exact ⟨rfl, show List.Nodup [CallTag.createMintCall] by decide,
          fun _ => rfl⟩
      | ok u =>
        cases u
        rw [createToken_success p s o d h1 h2 h3 hd hC] at hr
        obtain rfl := Option.some.inj hr
        refine ⟨rfl, show List.Nodup [CallTag.createMintCall] by decide,
          fun hok => ?_⟩
        simp at hok

/-- Witness for `c7_failure_policy` at concrete failing runs whose
collaborator errors carry raw diagnostic text: each operation emits
exactly the one static message and repeats no call. -/
theorem c7_witness :
    mintToken ⟨"W1"⟩ ⟨"M1", "2.5", 6, []⟩
        ⟨true, .ok "A1", .error "RPC 503 raw detail", .ok (), .ok "G1",
          .ok ()⟩ =
      some (mintFailureResult ⟨"M1", "2.5", 6, []⟩
        (some (mintBuiltTx ⟨"W1"⟩ ⟨"M1", "2.5", 6, []⟩ "A1" ((5 : ℚ) / 2)))
        [.ata, .blockhash]) ∧
    (mintFailureResult ⟨"M1", "2.5", 6, []⟩
        (some (mintBuiltTx ⟨"W1"⟩ ⟨"M1", "2.5", 6, []⟩ "A1" ((5 : ℚ) / 2)))
        [.ata, .blockhash]).notifications = [⟨.error, mintFailMsg⟩] ∧
    (mintFailureResult ⟨"M1", "2.5", 6, []⟩
        (some (mintBuiltTx ⟨"W1"⟩ ⟨"M1", "2.5", 6, []⟩ "A1" ((5 : ℚ) / 2)))
        [.ata, .blockhash]).calls.Nodup ∧
    sendToken ⟨"W1"⟩ ⟨"R1", "T1", "3.25", [⟨"T1", 10, 2⟩]⟩
        ⟨true, .ok "SA1", .error "node panic trace", .ok "B1", .ok (),
          .ok "G1", .ok ()⟩ =
      some (sendFailureResult ⟨"R1", "T1", "3.25", [⟨"T1", 10, 2⟩]⟩ none
        [.ata, .ataRecipient]) ∧
    (sendFailureResult ⟨"R1", "T1", "3.25", [⟨"T1", 10, 2⟩]⟩ none
        [.ata, .ataRecipient]).notifications = [⟨.error, sendFailMsg⟩] ∧
    createToken ⟨"W1"⟩ ⟨"Demo", "DMO", "9"⟩
        ⟨"NM1", .error "simulation failed: raw logs"⟩ =
      some { createdTokenMint := none
             notifications := [⟨.error, createFailMsg⟩]
             builtTx := some [Instr.initializeMint "NM1" 9 "W1" "W1"]
             calls := [.createMintCall]
             ok := false
             isLoading := false } ∧
    ([⟨.error, createFailMsg⟩] : List Notification).length = 1 := by
  have hv1 : parseDecQ "2.5" = some ((5 : ℚ) / 2) := by
    simp only [parseDecQ,
      show scanDec "2.5" = some (false, 2, 5, 1) from by decide,
      Option.map_some]
    norm_num
  have hv2 : parseDecQ "3.25" = some ((13 : ℚ) / 4) := by
    simp only [parseDecQ,
      show scanDec "3.25" = some (false, 3, 25, 2) from by decide,
      Option.map_some]
    norm_num
  have h1m := mintToken_blockhash_fail ⟨"W1"⟩ ⟨"M1", "2.5", 6, []⟩
    ⟨true, .ok "A1", .error "RPC 503 raw detail", .ok (), .ok "G1", .ok ()⟩
    "A1" ((5 : ℚ) / 2) "RPC 503 raw detail" (by decide) (by decide) hv1
    rfl rfl rfl
  have h1s := sendToken_recipAta_fail ⟨"W1"⟩
    ⟨"R1", "T1", "3.25", [⟨"T1", 10, 2⟩]⟩
    ⟨true, .ok "SA1", .error "node panic trace", .ok "B1", .ok (),
      .ok "G1", .ok ()⟩
    ⟨"T1", 10, 2⟩ ((13 : ℚ) / 4) "SA1" "node panic trace"
    ⟨by decide, by decide, by decide, rfl, hv2⟩ rfl rfl
  have h1c := createToken_fail ⟨"W1"⟩ ⟨"Demo", "DMO", "9"⟩
    ⟨"NM1", .error "simulation failed: raw logs"⟩ 9
    "simulation failed: raw logs" (by decide) (by decide) (by decide)
    (by decide) rfl
  have hm := c7_failure_policy.1 ⟨"W1"⟩ ⟨"M1", "2.5", 6, []⟩
    ⟨true, .ok "A1", .error "RPC 503 raw detail", .ok (), .ok "G1", .ok ()⟩
    _ (by decide) (by decide) h1m
  have hs := c7_failure_policy.2.1 ⟨"W1"⟩
    ⟨"R1", "T1", "3.25", [⟨"T1", 10, 2⟩]⟩
    ⟨true, .ok "SA1", .error "node panic trace", .ok "B1", .ok (),
      .ok "G1", .ok ()⟩
    _ (by decide) (by decide) (by decide) h1s
  exact ⟨h1m, hm.2.2 rfl, hm.2.1, h1s, hs.2.2 rfl, h1c, rfl⟩

/-- Claim C8, as stated, is false: the gateway disconnect call sits
inside the try block BEFORE `setWalletAddress(null)`, so when it throws,
the catch block runs instead — the session address is NOT cleared and an
error notification IS surfaced ("Failed to disconnect wallet"). -/
theorem c8_counterexample :
    disconnectWallet (some "Addr1") true (.error "gateway boom") =
      { walletAddress := some "Addr1"
        notifications := [⟨.error, "Failed to disconnect wallet"⟩]
        loggedError := true } ∧
    (disconnectWallet (some "Addr1") true
      (.error "gateway boom")).walletAddress ≠ none ∧
    (disconnectWallet (some "Addr1") true
      (.error "gateway boom")).notifications.all
        (fun n => n.kind == NotifKind.error) = true := by
  decide

/-- Claim C8 (amended): `disconnectWallet` requests the gateway
disconnect inside a try block; when the provider is absent or the call
returns normally, the session address is cleared and a success
notification is shown; when the call throws, the error is logged, an
ERROR notification is surfaced, and the session address is left
unchanged (it is NOT cleared). -/
theorem c8_disconnect :
    (∀ (addr : Option String) (g : Except String Unit),
      disconnectWallet addr false g =
        { walletAddress := none
          notifications := [⟨.success, "Wallet disconnected"⟩]
          loggedError := false }) ∧
    (∀ addr : Option String,
      disconnectWallet addr true (.ok ()) =
        { walletAddress := none
          notifications := [⟨.success, "Wallet disconnected"⟩]
          loggedError := false }) ∧
    (∀ (addr : Option String) (e : String),
      disconnectWallet addr true (.error e) =
        { walletAddress := addr
          notifications := [⟨.error, "Failed to disconnect wallet"⟩]
          loggedError := true }) :=
  ⟨fun _ _ => rfl, fun _ => rfl, fun _ _ => rfl⟩

/-- Witness for `c8_disconnect` at concrete inputs. -/
theorem c8_witness :
    disconnectWallet (some "Addr1") true (.ok ()) =
      { walletAddress := none
        notifications := [⟨.success, "Wallet disconnected"⟩]
        loggedError := false } ∧
    disconnectWallet (some "Addr1") false (.error "unused") =
      { walletAddress := none
        notifications := [⟨.success, "Wallet disconnected"⟩]
        loggedError := false } ∧
    disconnectWallet (some "Addr1") true (.error "gateway boom") =
      { walletAddress := some "Addr1"
        notifications := [⟨.error, "Failed to disconnect wallet"⟩]
        loggedError := true } :=
  ⟨c8_disconnect.2.1 (some "Addr1"),
    c8_disconnect.1 (some "Addr1") (.error "unused"),
    c8_disconnect.2.2 (some "Addr1") "gateway boom"⟩

/-- Whether `needle` occurs as a contiguous substring of `hay`. -/
def containsSubstring (hay needle : String) : Bool :=
  (List.range (hay.length + 1)).any fun i =>
    List.isPrefixOf needle.data (hay.data.drop i)

/-- Claim C9, as stated, is false in its notification clause: the
success notification of Create is the STATIC string
`"Token created successfully!"`; the new mint's address appears in the
`createdTokenMint` panel state, not in the notification message. -/
theorem c9_counterexample :
    createToken ⟨"W1"⟩ ⟨"Demo", "DMO", "9"⟩ ⟨"NM1", .ok ()⟩ =
      some { createdTokenMint := some "NM1"
             notifications := [⟨.success, createSuccessMsg⟩]
             builtTx := some [Instr.initializeMint "NM1" 9 "W1" "W1"]
             calls := [.createMintCall]
             ok := true
             isLoading := false } ∧
    containsSubstring createSuccessMsg "NM1" = false := by
  decide

/-- Claim C9 (amended): for Create with all fields filled and decimals
`d` in [0,9], the built transaction is one initialize-mint instruction
with precision `d` and the session address as BOTH mint authority and
freeze authority; on confirmation, a static success notification
("Token created successfully!") is shown and the new mint's address is
stored in the component state for display in the panel — the address is
not part of the notification message. -/
theorem c9_create_token (p : WalletProps) (s : CreateFormState)
    (o : CreateOracle) (d : ℕ) (r : CreateResult)
    (h1 : s.tokenName ≠ "") (h2 : s.tokenSymbol ≠ "") (h3 : s.decimals ≠ "")
    (hd : parseIntNat s.decimals = some d) (_hd9 : d ≤ 9)
    (hc : o.createMint = .ok ())
    (hr : createToken p s o = some r) :
    r.builtTx =
      some [Instr.initializeMint o.newMint d p.walletAddress
        p.walletAddress] ∧
    r.notifications = [⟨.success, createSuccessMsg⟩] ∧
    r.createdTokenMint = some o.newMint := by
  rw [createToken_success p s o d h1 h2 h3 hd hc] at hr
  obtain rfl := Option.some.inj hr
  exact ⟨rfl, rfl, rfl⟩

/-- Witness for `c9_create_token` at the spec's end-to-end Create
scenario: name "Demo", symbol "DMO", decimals "9". -/
theorem c9_witness :
    createToken ⟨"W1"⟩ ⟨"Demo", "DMO", "9"⟩ ⟨"NM1", .ok ()⟩ =
      some { createdTokenMint := some "NM1"
             notifications := [⟨.success, createSuccessMsg⟩]
             builtTx := some [Instr.initializeMint "NM1" 9 "W1" "W1"]
             calls := [.createMintCall]
             ok := true
             isLoading := false } ∧
    ({ createdTokenMint := some "NM1"
       notifications := [⟨.success, createSuccessMsg⟩]
       builtTx := some [Instr.initializeMint "NM1" 9 "W1" "W1"]
       calls := [.createMintCall]
       ok := true
       isLoading := false } : CreateResult).builtTx =
      some [Instr.initializeMint "NM1" 9 "W1" "W1"] ∧
    ({ createdTokenMint := some "NM1"
       notifications := [⟨.success, createSuccessMsg⟩]
       builtTx := some [Instr.initializeMint "NM1" 9 "W1" "W1"]
       calls := [.createMintCall]
       ok := true
       isLoading := false } : CreateResult).notifications =
      [⟨.success, createSuccessMsg⟩] := by
  have hrun : createToken ⟨"W1"⟩ ⟨"Demo", "DMO", "9"⟩ ⟨"NM1", .ok ()⟩ =
      some { createdTokenMint := some "NM1"
             notifications := [⟨.success, createSuccessMsg⟩]
             builtTx := some [Instr.initializeMint "NM1" 9 "W1" "W1"]
             calls := [.createMintCall]
             ok := true
             isLoading := false } := by decide
  have h := c9_create_token ⟨"W1"⟩ ⟨"Demo", "DMO", "9"⟩ ⟨"NM1", .ok ()⟩ 9 _
    (by decide) (by decide) (by decide) (by decide) (by decide) rfl hrun
  exact ⟨hrun, h.1, h.2.1⟩
